import Mathlib

/-!
Verification of the SoulMiles geospatial grid subsystem.

The development shallowly embeds the grid utility module (`gridUtils`:
`TAIWAN_BOUNDS`, `isInTaiwanBounds`, `coordinateToGridId`,
`gridIdToCoordinate`, `gridIdToCenter`, `getVisibleGridIds`,
`getAllTaiwanGridIds`) together with the exploration-tracking logic of the
`mist-percentage` and `explore-grid` request handlers.

Modelling conventions:
* JavaScript numbers are modelled as exact rationals (`ℚ`); `Math.floor`
  is the mathematical floor `Int.floor`.
* `Number.prototype.toFixed(k)` is modelled by `toFixedChars`, which
  rounds half-up to `k` decimal places and renders with exactly `k`
  fractional digits (for the values produced by this code the scaled
  argument is an exact integer, so the rounding mode never matters).
* `parseFloat` is modelled by `parseFloatChars` for plain decimal
  numerals (optional sign, integer digits, optional fraction); exponent
  notation is never produced by this code's formatting and is not
  modelled (a string with no leading numeral parses to `none`, the
  embedding of NaN).
* `String.prototype.split(sep)` is modelled by `splitOnChar` on the
  character list.
* The persistence store is a list of `Footprint` records; timestamps are
  naturals supplied by the caller.
-/

namespace SoulMiles

/-! ### Decimal digit rendering and parsing infrastructure -/

/-- The character for a decimal digit `d < 10` (code point `48 + d`). -/
def digitChar (d : ℕ) : Char := Char.ofNat (48 + d)

/-- Little-endian decimal digits of `n`, with explicit fuel so that the
recursion is structural and kernel-reducible; `natDigits` supplies `n`
itself as fuel, which always suffices. -/
def natDigitsAux : ℕ → ℕ → List ℕ
  | 0, _ => []
  | fuel + 1, n => if n = 0 then [] else n % 10 :: natDigitsAux fuel (n / 10)

/-- Little-endian decimal digits of `n` (empty for `0`). -/
def natDigits (n : ℕ) : List ℕ := natDigitsAux n n

/-- Value of a little-endian digit list. -/
def ofDigitsLE (ds : List ℕ) : ℕ := ds.foldr (fun d acc => d + 10 * acc) 0

/-- The decimal numeral for `n`, most significant digit first. -/
def natStr (n : ℕ) : List Char :=
  if n = 0 then ['0'] else ((natDigits n).map digitChar).reverse

/-- Numeric value of a big-endian digit-character list (the accumulator
fold performed by a left-to-right digit parse). -/
def valDigits (cs : List Char) : ℕ :=
  cs.foldl (fun a c => 10 * a + (c.toNat - 48)) 0

/-- Left-pad a digit list with `'0'` to length `k` (the fixed-width
fractional part of `toFixed`). -/
def padZeros (k : ℕ) (cs : List Char) : List Char :=
  List.replicate (k - cs.length) '0' ++ cs

/-- JS-style decimal digit test, as used by the `parseFloat` model. -/
def isDigitChar (c : Char) : Bool := 48 ≤ c.toNat && c.toNat ≤ 57

/-- Strip an optional leading sign, returning whether it was `'-'`. -/
def stripSign : List Char → Bool × List Char
  | [] => (false, [])
  | c :: rest =>
    if c = '-' then (true, rest)
    else if c = '+' then (false, rest)
    else (false, c :: rest)

/-- Model of JavaScript `parseFloat` restricted to plain decimal
numerals: optional sign, a run of integer digits, an optional `'.'` with
a run of fraction digits; trailing garbage is ignored, and a string with
no digits in either position yields `none` (NaN). -/
def parseFloatChars (cs : List Char) : Option ℚ :=
  let signed := stripSign cs
  let ds := signed.2.takeWhile isDigitChar
  let rest := signed.2.dropWhile isDigitChar
  let fs :=
    match rest with
    | c :: r2 => if c = '.' then r2.takeWhile isDigitChar else []
    | [] => []
  if ds.isEmpty && fs.isEmpty then none
  else
    let mag : ℚ := (valDigits ds : ℚ) + (valDigits fs : ℚ) / 10 ^ fs.length
    some (if signed.1 then -mag else mag)

/-- Model of `String.prototype.split(sep)` on character lists (split at
every occurrence of the separator, keeping empty pieces). -/
def splitOnChar (sep : Char) : List Char → List (List Char)
  | [] => [[]]
  | c :: rest =>
    if c = sep then [] :: splitOnChar sep rest
    else
      match splitOnChar sep rest with
      | l :: ls => (c :: l) :: ls
      | [] => [[c]]

/-! ### `toFixed` -/

/-- Model of `Number.prototype.toFixed(k)` (for `k ≥ 1`): round the
scaled value to an integer, then render sign, integer part, `'.'`, and
exactly `k` fraction digits. -/
def toFixedChars (k : ℕ) (q : ℚ) : List Char :=
  let m : ℤ := round (q * 10 ^ k)
  (if m < 0 then ['-'] else []) ++
    natStr (m.natAbs / 10 ^ k) ++ '.' :: padZeros k (natStr (m.natAbs % 10 ^ k))

/-! ### The grid module (`gridUtils`) -/

/-- The fixed bounding region (`TAIWAN_BOUNDS` in the source). -/
structure GeoBounds where
  minLat : ℚ
  maxLat : ℚ
  minLon : ℚ
  maxLon : ℚ

/-- 台灣範圍定義（擴大範圍以確保完整覆蓋）. -/
def TAIWAN_BOUNDS : GeoBounds :=
  { minLat := 21.5, maxLat := 25.5, minLon := 119.0, maxLon := 122.5 }

/-- 方塊大小（約 1km）: latitude step of one grid cell. -/
def GRID_SIZE_LAT : ℚ := 0.009

/-- Longitude step of one grid cell. -/
def GRID_SIZE_LON : ℚ := 0.01

/-- 檢查座標是否在台灣範圍內 (inclusive on all four edges). -/
def isInTaiwanBounds (lat lon : ℚ) : Prop :=
  TAIWAN_BOUNDS.minLat ≤ lat ∧ lat ≤ TAIWAN_BOUNDS.maxLat ∧
    TAIWAN_BOUNDS.minLon ≤ lon ∧ lon ≤ TAIWAN_BOUNDS.maxLon

instance (lat lon : ℚ) : Decidable (isInTaiwanBounds lat lon) := by
  unfold isInTaiwanBounds; infer_instance

/-- The id template `` `grid_${gridLat.toFixed(3)}_${gridLon.toFixed(2)}` ``
shared by `coordinateToGridId` and both enumeration loops. -/
def gridIdString (gridLat gridLon : ℚ) : String :=
  String.mk ("grid_".data ++ toFixedChars 3 gridLat ++ '_' :: toFixedChars 2 gridLon)

/-- 將實際座標轉換為方塊 ID: `null` outside the region, otherwise the id
of the cell whose lower-left corner is the floored coordinate. -/
def coordinateToGridId (lat lon : ℚ) : Option String :=
  if isInTaiwanBounds lat lon then
    some (gridIdString ((⌊lat / GRID_SIZE_LAT⌋ : ℚ) * GRID_SIZE_LAT)
      ((⌊lon / GRID_SIZE_LON⌋ : ℚ) * GRID_SIZE_LON))
  else none

/-- 從方塊 ID 解析出方塊左下角座標: split on `'_'`, require exactly three
parts with head `"grid"`, and parse both numbers (NaN ⇒ `null`). -/
def gridIdToCoordinate (gridId : String) : Option (ℚ × ℚ) :=
  match splitOnChar '_' gridId.data with
  | [p0, p1, p2] =>
    if p0 = "grid".data then
      match parseFloatChars p1, parseFloatChars p2 with
      | some lat, some lon => some (lat, lon)
      | _, _ => none
    else none
  | _ => none

/-- 從方塊 ID 計算方塊中心點座標: parsed corner plus half a step. -/
def gridIdToCenter (gridId : String) : Option (ℚ × ℚ) :=
  match gridIdToCoordinate gridId with
  | none => none
  | some (lat, lon) => some (lat + GRID_SIZE_LAT / 2, lon + GRID_SIZE_LON / 2)

/-! ### Region enumeration loops

`getAllTaiwanGridIds` and `getVisibleGridIds` are nested `while` loops in
the source; each loop is embedded as a well-founded recursion on the
number of remaining steps. -/

/-- Inner loop of `getAllTaiwanGridIds`: `while (currentLon < maxLon)`
push the id and advance by one longitude step. -/
def taiwanLonLoop (currentLat currentLon : ℚ) : List String :=
  if h : currentLon < TAIWAN_BOUNDS.maxLon then
    gridIdString currentLat currentLon ::
      taiwanLonLoop currentLat (currentLon + GRID_SIZE_LON)
  else []
termination_by (⌈(TAIWAN_BOUNDS.maxLon - currentLon) / GRID_SIZE_LON⌉).toNat
decreasing_by
  have hs : (0 : ℚ) < GRID_SIZE_LON := by norm_num [GRID_SIZE_LON]
  have h3 : ⌈(TAIWAN_BOUNDS.maxLon - (currentLon + GRID_SIZE_LON)) / GRID_SIZE_LON⌉ =
      ⌈(TAIWAN_BOUNDS.maxLon - currentLon) / GRID_SIZE_LON⌉ - 1 := by
    rw [show (TAIWAN_BOUNDS.maxLon - (currentLon + GRID_SIZE_LON)) / GRID_SIZE_LON =
        (TAIWAN_BOUNDS.maxLon - currentLon) / GRID_SIZE_LON - 1 by
      field_simp
      ring]
    exact Int.ceil_sub_one _
  have h4 : 0 < ⌈(TAIWAN_BOUNDS.maxLon - currentLon) / GRID_SIZE_LON⌉ :=
    Int.ceil_pos.mpr (div_pos (by linarith) hs)
  omega

/-- Outer loop of `getAllTaiwanGridIds`: `while (currentLat < maxLat)` run
a full longitude row from the floor-aligned west start. -/
def taiwanLatLoop (currentLat : ℚ) : List String :=
  if h : currentLat < TAIWAN_BOUNDS.maxLat then
    taiwanLonLoop currentLat
        ((⌊TAIWAN_BOUNDS.minLon / GRID_SIZE_LON⌋ : ℚ) * GRID_SIZE_LON) ++
      taiwanLatLoop (currentLat + GRID_SIZE_LAT)
  else []
termination_by (⌈(TAIWAN_BOUNDS.maxLat - currentLat) / GRID_SIZE_LAT⌉).toNat
decreasing_by
  have hs : (0 : ℚ) < GRID_SIZE_LAT := by norm_num [GRID_SIZE_LAT]
  have h3 : ⌈(TAIWAN_BOUNDS.maxLat - (currentLat + GRID_SIZE_LAT)) / GRID_SIZE_LAT⌉ =
      ⌈(TAIWAN_BOUNDS.maxLat - currentLat) / GRID_SIZE_LAT⌉ - 1 := by
    rw [show (TAIWAN_BOUNDS.maxLat - (currentLat + GRID_SIZE_LAT)) / GRID_SIZE_LAT =
        (TAIWAN_BOUNDS.maxLat - currentLat) / GRID_SIZE_LAT - 1 by
      field_simp
      ring]
    exact Int.ceil_sub_one _
  have h4 : 0 < ⌈(TAIWAN_BOUNDS.maxLat - currentLat) / GRID_SIZE_LAT⌉ :=
    Int.ceil_pos.mpr (div_pos (by linarith) hs)
  omega

/-- The body of 獲取整個台灣範圍內的所有方塊 ID: both loops, started at the
floor-aligned south-west corner. -/
def computeAllTaiwanGridIds : List String :=
  taiwanLatLoop ((⌊TAIWAN_BOUNDS.minLat / GRID_SIZE_LAT⌋ : ℚ) * GRID_SIZE_LAT)

/-- `getAllTaiwanGridIds` with the module-level cache made explicit: the
cache cell is threaded as state (`none` before the first call). -/
def getAllTaiwanGridIds (cache : Option (List String)) :
    List String × Option (List String) :=
  match cache with
  | some cached => (cached, some cached)
  | none => (computeAllTaiwanGridIds, some computeAllTaiwanGridIds)

/-- A map viewport, as passed to `getVisibleGridIds`. -/
structure ViewBounds where
  north : ℚ
  south : ℚ
  east : ℚ
  west : ℚ

/-- Inner loop of `getVisibleGridIds`: `while (currentLon <= maxLon)`
(inclusive, unlike the full enumeration). -/
def visibleLonLoop (maxLon currentLat currentLon : ℚ) : List String :=
  if h : currentLon ≤ maxLon then
    gridIdString currentLat currentLon ::
      visibleLonLoop maxLon currentLat (currentLon + GRID_SIZE_LON)
  else []
termination_by (⌊(maxLon - currentLon) / GRID_SIZE_LON⌋ + 1).toNat
decreasing_by
  have hs : (0 : ℚ) < GRID_SIZE_LON := by norm_num [GRID_SIZE_LON]
  have h3 : ⌊(maxLon - (currentLon + GRID_SIZE_LON)) / GRID_SIZE_LON⌋ =
      ⌊(maxLon - currentLon) / GRID_SIZE_LON⌋ - 1 := by
    rw [show (maxLon - (currentLon + GRID_SIZE_LON)) / GRID_SIZE_LON =
        (maxLon - currentLon) / GRID_SIZE_LON - 1 by
      field_simp
      ring]
    exact Int.floor_sub_one _
  have h4 : 0 ≤ ⌊(maxLon - currentLon) / GRID_SIZE_LON⌋ :=
    Int.floor_nonneg.mpr (div_nonneg (by linarith) (le_of_lt hs))
  omega

/-- Outer loop of `getVisibleGridIds`: `while (currentLat <= maxLat)`. -/
def visibleLatLoop (maxLat maxLon startGridLon currentLat : ℚ) : List String :=
  if h : currentLat ≤ maxLat then
    visibleLonLoop maxLon currentLat startGridLon ++
      visibleLatLoop maxLat maxLon startGridLon (currentLat + GRID_SIZE_LAT)
  else []
termination_by (⌊(maxLat - currentLat) / GRID_SIZE_LAT⌋ + 1).toNat
decreasing_by
  have hs : (0 : ℚ) < GRID_SIZE_LAT := by norm_num [GRID_SIZE_LAT]
  have h3 : ⌊(maxLat - (currentLat + GRID_SIZE_LAT)) / GRID_SIZE_LAT⌋ =
      ⌊(maxLat - currentLat) / GRID_SIZE_LAT⌋ - 1 := by
    rw [show (maxLat - (currentLat + GRID_SIZE_LAT)) / GRID_SIZE_LAT =
        (maxLat - currentLat) / GRID_SIZE_LAT - 1 by
      field_simp
      ring]
    exact Int.floor_sub_one _
  have h4 : 0 ≤ ⌊(maxLat - currentLat) / GRID_SIZE_LAT⌋ :=
    Int.floor_nonneg.mpr (div_nonneg (by linarith) (le_of_lt hs))
  omega

/-- 計算可見區域內的所有方塊 ID: clamp the viewport to the region, floor
the start, and enumerate inclusively up to the clamped maxima. -/
def getVisibleGridIds (bounds : ViewBounds) : List String :=
  let minLat := max bounds.south TAIWAN_BOUNDS.minLat
  let maxLat := min bounds.north TAIWAN_BOUNDS.maxLat
  let minLon := max bounds.west TAIWAN_BOUNDS.minLon
  let maxLon := min bounds.east TAIWAN_BOUNDS.maxLon
  visibleLatLoop maxLat maxLon ((⌊minLon / GRID_SIZE_LON⌋ : ℚ) * GRID_SIZE_LON)
    ((⌊minLat / GRID_SIZE_LAT⌋ : ℚ) * GRID_SIZE_LAT)

/-! ### ExplorationTracker (mist-percentage `GET`) -/

/-- Parsing of one stored coordinate string in the mist-percentage
aggregation loop: `const [latStr, lonStr] = coordinate.split(',')` takes
the first two pieces (a missing second piece is `undefined`, whose
`parseFloat` is NaN), and a NaN in either slot skips the record. -/
def parseCoordinatePair (coordinate : String) : Option (ℚ × ℚ) :=
  match splitOnChar ',' coordinate.data with
  | latStr :: lonStr :: _ =>
    match parseFloatChars latStr, parseFloatChars lonStr with
    | some lat, some lon => some (lat, lon)
    | _, _ => none
  | _ => none

/-- The cell id derived from one visit record's coordinate string
(`none` when the record is skipped: unparsable or out of region). -/
def recordGridId (coordinate : String) : Option String :=
  match parseCoordinatePair coordinate with
  | none => none
  | some (lat, lon) => coordinateToGridId lat lon

/-- One iteration of the `footprints.forEach` aggregation: add the
record's cell id to the explored set, or skip silently. -/
def exploredStep (acc : Finset String) (coordinate : String) : Finset String :=
  match recordGridId coordinate with
  | none => acc
  | some gridId => insert gridId acc

/-- The deduplicated explored-cell set of a list of visit-record
coordinate strings (the JS `Set` built by the aggregation loop). -/
def computeExploredSet (footprints : List String) : Finset String :=
  footprints.foldl exploredStep ∅

/-- The percentage arithmetic of the mist-percentage handler:
`0` when there are no cells, otherwise
`Math.round((exploredCount / totalGrids) * 100)`. -/
def computeCoveragePercentage (exploredCount totalGrids : ℕ) : ℤ :=
  if totalGrids = 0 then 0
  else round (((exploredCount : ℚ) / (totalGrids : ℚ)) * 100)

/-- The full mist-percentage computation for one user's visit records:
total cell count from the cached full-region enumeration, explored set
from the records, then the rounded percentage. -/
def mistPercentage (footprints : List String) : ℤ :=
  let totalGrids := computeAllTaiwanGridIds.length
  if totalGrids = 0 then 0
  else round ((((computeExploredSet footprints).card : ℚ) / (totalGrids : ℚ)) * 100)

/-! ### Visit recording (the two `POST` handlers)

The number-to-string conversion performed by the template literal
`` `${lat},${lon}` `` is modelled by `ratChars`: JavaScript prints each
double as its shortest round-tripping decimal, a map whose only
properties used by these handlers are that distinct numbers yield
distinct digit strings and that no comma occurs inside a number.
`ratChars` renders `num/den` of the reduced fraction, which has exactly
those properties over `ℚ`. -/

/-- Digit string of an integer (sign plus magnitude). -/
def intChars (n : ℤ) : List Char :=
  (if n < 0 then ['-'] else []) ++ natStr n.natAbs

/-- Injective stand-in for JavaScript number-to-string conversion. -/
def ratChars (q : ℚ) : List Char := intChars q.num ++ '/' :: natStr q.den

/-- The persisted coordinate string `` `${lat},${lon}` ``. -/
def coordString (lat lon : ℚ) : String := String.mk (ratChars lat ++ ',' :: ratChars lon)

/-- A persisted `Footprint` row (the fields the handlers touch). -/
structure Footprint where
  user_id : String
  coordinate : String
  update_time : ℕ
deriving DecidableEq

/-- The row predicate used by both handlers' `findFirst`. -/
def footprintMatches (userId coordinate : String) (f : Footprint) : Bool :=
  f.user_id == userId && f.coordinate == coordinate

/-- `prisma.footprint.update` of the first matching row's `Update_time`. -/
def touchFirst (p : Footprint → Bool) (now : ℕ) : List Footprint → List Footprint
  | [] => []
  | f :: rest =>
    if p f then { f with update_time := now } :: rest else f :: touchFirst p now rest

/-- Outcome of the raw-coordinate visit-recording handler. -/
inductive VisitOutcome where
  | outOfBounds
  | updated
  | created
deriving DecidableEq

/-- The raw-coordinate `POST` handler (mist-percentage file): reject when
`coordinateToGridId` is `null`, otherwise look up the row keyed by
`(userId, exact raw coordinate string)`; touch `Update_time` if found,
create otherwise. -/
def recordVisitRaw (userId : String) (lat lon : ℚ) (now : ℕ)
    (db : List Footprint) : VisitOutcome × List Footprint :=
  match coordinateToGridId lat lon with
  | none => (.outOfBounds, db)
  | some _ =>
    let coordinate := coordString lat lon
    match db.find? (footprintMatches userId coordinate) with
    | some _ => (.updated, touchFirst (footprintMatches userId coordinate) now db)
    | none => (.created, db ++ [{ user_id := userId, coordinate := coordinate, update_time := now }])

/-- Outcome of the explore-grid handler. -/
inductive ExploreOutcome where
  | outOfBounds
  | invalid
  | alreadyExplored
  | created
deriving DecidableEq

/-- The explore-grid `POST` handler: after the bounds check it derives
the cell id, stores the cell **center** as the coordinate string, and
keys the lookup on that center string; an existing row is returned
unchanged (`alreadyExplored`), with no timestamp update. -/
def recordVisitCenter (userId : String) (lat lon : ℚ) (now : ℕ)
    (db : List Footprint) : ExploreOutcome × List Footprint :=
  if isInTaiwanBounds lat lon then
    match coordinateToGridId lat lon with
    | none => (.invalid, db)
    | some gridId =>
      match gridIdToCenter gridId with
      | none => (.invalid, db)
      | some center =>
        let coordinate := coordString center.1 center.2
        match db.find? (footprintMatches userId coordinate) with
        | some _ => (.alreadyExplored, db)
        | none =>
          (.created, db ++ [{ user_id := userId, coordinate := coordinate, update_time := now }])
  else (.outOfBounds, db)

/-! ## Lemmas: digit rendering -/

theorem natDigitsAux_val (fuel : ℕ) :
    ∀ n : ℕ, n ≤ fuel → ofDigitsLE (natDigitsAux fuel n) = n := by
  induction fuel with
  | zero =>
    intro n hn
    interval_cases n
    rfl
  | succ fuel ih =>
    intro n hn
    rw [natDigitsAux]
    by_cases h0 : n = 0
    · rw [if_pos h0, h0]; rfl
    · rw [if_neg h0]
      have hdiv : n / 10 ≤ fuel := by
        have : n / 10 < n := Nat.div_lt_self (Nat.pos_of_ne_zero h0) (by omega)
        omega
      show n % 10 + 10 * ofDigitsLE (natDigitsAux fuel (n / 10)) = n
      rw [ih (n / 10) hdiv]
      exact Nat.mod_add_div n 10

theorem natDigitsAux_lt10 (fuel : ℕ) :
    ∀ n : ℕ, ∀ d ∈ natDigitsAux fuel n, d < 10 := by
  induction fuel with
  | zero => intro n d hd; simp [natDigitsAux] at hd
  | succ fuel ih =>
    intro n d hd
    rw [natDigitsAux] at hd
    by_cases h0 : n = 0
    · rw [if_pos h0] at hd; simp at hd
    · rw [if_neg h0] at hd
      rcases List.mem_cons.mp hd with h | h
      · omega
      · exact ih (n / 10) d h

theorem natDigitsAux_length (fuel : ℕ) :
    ∀ n k : ℕ, n < 10 ^ k → (natDigitsAux fuel n).length ≤ k := by
  induction fuel with
  | zero => intro n k _; simp [natDigitsAux]
  | succ fuel ih =>
    intro n k hk
    rw [natDigitsAux]
    by_cases h0 : n = 0
    · rw [if_pos h0]; simp
    · rw [if_neg h0]
      have hk1 : 1 ≤ k := by
        by_contra hc
        have : k = 0 := by omega
        rw [this] at hk
        simp at hk
        omega
      have hdiv : n / 10 < 10 ^ (k - 1) := by
        rw [Nat.div_lt_iff_lt_mul (by omega)]
        calc n < 10 ^ k := hk
        _ = 10 ^ (k - 1) * 10 := by
            rw [← pow_succ]
            congr 1
            omega
      have := ih (n / 10) (k - 1) hdiv
      simp only [List.length_cons]
      omega

theorem ofDigitsLE_natDigits (n : ℕ) : ofDigitsLE (natDigits n) = n :=
  natDigitsAux_val n n le_rfl

theorem natDigits_lt10 (n : ℕ) : ∀ d ∈ natDigits n, d < 10 :=
  natDigitsAux_lt10 n n

theorem natDigits_length (n k : ℕ) (h : n < 10 ^ k) : (natDigits n).length ≤ k :=
  natDigitsAux_length n n k h

theorem digitChar_toNat (d : ℕ) (h : d < 10) : (digitChar d).toNat = 48 + d := by
  interval_cases d <;> decide

theorem isDigitChar_digitChar (d : ℕ) (h : d < 10) : isDigitChar (digitChar d) = true := by
  interval_cases d <;> decide

theorem valDigits_fold (ds : List ℕ) (h : ∀ d ∈ ds, d < 10) : ∀ a : ℕ,
    List.foldl (fun a c => 10 * a + (c.toNat - 48)) a ((ds.map digitChar).reverse) =
      a * 10 ^ ds.length + ofDigitsLE ds := by
  induction ds with
  | nil => intro a; simp [ofDigitsLE]
  | cons d t ih =>
    intro a
    have hd : d < 10 := h d (List.mem_cons_self d t)
    have ht : ∀ x ∈ t, x < 10 := fun x hx => h x (List.mem_cons_of_mem d hx)
    simp only [List.map_cons, List.reverse_cons, List.foldl_append, List.foldl_cons,
      List.foldl_nil, ih ht a, List.length_cons]
    rw [digitChar_toNat d hd]
    have : 48 + d - 48 = d := by omega
    rw [this]
    show 10 * (a * 10 ^ t.length + ofDigitsLE t) + d =
      a * 10 ^ (t.length + 1) + ofDigitsLE (d :: t)
    have hof : ofDigitsLE (d :: t) = d + 10 * ofDigitsLE t := rfl
    rw [hof, pow_succ]
    ring

theorem valDigits_natStr (n : ℕ) : valDigits (natStr n) = n := by
  by_cases h0 : n = 0
  · rw [h0]; rfl
  · rw [natStr, if_neg h0]
    show List.foldl _ 0 ((natDigits n).map digitChar).reverse = n
    rw [valDigits_fold (natDigits n) (natDigits_lt10 n) 0, ofDigitsLE_natDigits]
    ring

theorem natStr_inj {a b : ℕ} (h : natStr a = natStr b) : a = b := by
  have := congrArg valDigits h
  rwa [valDigits_natStr, valDigits_natStr] at this

theorem natStr_ne_nil (n : ℕ) : natStr n ≠ [] := by
  by_cases h0 : n = 0
  · rw [h0]; decide
  · rw [natStr, if_neg h0]
    intro hc
    have hlen := congrArg List.length hc
    simp only [List.length_reverse, List.length_map, List.length_nil] at hlen
    have : natDigits n = [] := List.eq_nil_of_length_eq_zero hlen
    have hval := ofDigitsLE_natDigits n
    rw [this] at hval
    exact h0 (by simpa [ofDigitsLE] using hval.symm)

theorem natStr_all_digit (n : ℕ) : ∀ c ∈ natStr n, isDigitChar c = true := by
  intro c hc
  by_cases h0 : n = 0
  · rw [h0, show natStr 0 = ['0'] from rfl, List.mem_singleton] at hc
    rw [hc]; decide
  · rw [natStr, if_neg h0, List.mem_reverse, List.mem_map] at hc
    obtain ⟨d, hd, rfl⟩ := hc
    exact isDigitChar_digitChar d (natDigits_lt10 n d hd)

theorem natStr_length_le (n k : ℕ) (h1 : 1 ≤ k) (h : n < 10 ^ k) :
    (natStr n).length ≤ k := by
  by_cases h0 : n = 0
  · rw [h0]; simpa using h1
  · rw [natStr, if_neg h0]
    simpa using natDigits_length n k h

/-! ## Lemmas: padding, digit value, list splitting -/

theorem padZeros_length (k : ℕ) (cs : List Char) (h : cs.length ≤ k) :
    (padZeros k cs).length = k := by
  simp only [padZeros, List.length_append, List.length_replicate]
  omega

theorem foldl_replicate_zero : ∀ m : ℕ,
    List.foldl (fun a c => 10 * a + (c.toNat - 48)) 0 (List.replicate m '0') = 0 := by
  intro m
  induction m with
  | zero => rfl
  | succ m ih => simpa [List.replicate_succ] using ih

theorem valDigits_padZeros (k : ℕ) (cs : List Char) :
    valDigits (padZeros k cs) = valDigits cs := by
  show List.foldl _ 0 (List.replicate (k - cs.length) '0' ++ cs) = valDigits cs
  rw [List.foldl_append, foldl_replicate_zero]
  rfl

theorem padZeros_all_digit (k : ℕ) (cs : List Char)
    (h : ∀ c ∈ cs, isDigitChar c = true) :
    ∀ c ∈ padZeros k cs, isDigitChar c = true := by
  intro c hc
  rcases List.mem_append.mp hc with h1 | h2
  · rw [List.eq_of_mem_replicate h1]; decide
  · exact h c h2

theorem takeWhile_all {α} (p : α → Bool) (as : List α)
    (h : ∀ c ∈ as, p c = true) :
    as.takeWhile p = as ∧ as.dropWhile p = [] := by
  induction as with
  | nil => exact ⟨rfl, rfl⟩
  | cons a t ih =>
    have ha : p a = true := h a (List.mem_cons_self a t)
    have ht := ih (fun c hc => h c (List.mem_cons_of_mem a hc))
    simp only [List.takeWhile_cons, List.dropWhile_cons, ha, if_true]
    exact ⟨by rw [ht.1], ht.2⟩

theorem takeWhile_append_stop {α} (p : α → Bool) (as : List α) (x : α) (bs : List α)
    (h : ∀ c ∈ as, p c = true) (hx : p x = false) :
    (as ++ x :: bs).takeWhile p = as ∧ (as ++ x :: bs).dropWhile p = x :: bs := by
  induction as with
  | nil => simp [List.takeWhile_cons, List.dropWhile_cons, hx]
  | cons a t ih =>
    have ha : p a = true := h a (List.mem_cons_self a t)
    have ht := ih (fun c hc => h c (List.mem_cons_of_mem a hc))
    simp only [List.cons_append, List.takeWhile_cons, List.dropWhile_cons, ha, if_true]
    exact ⟨by rw [ht.1], ht.2⟩

theorem append_sep_inj {sep : Char} :
    ∀ {a a' b b' : List Char}, sep ∉ a → sep ∉ a' →
      a ++ sep :: b = a' ++ sep :: b' → a = a' ∧ b = b' := by
  intro a
  induction a with
  | nil =>
    intro a' b b' _ ha' h
    cases a' with
    | nil => simpa using h
    | cons c t =>
      exfalso
      have : sep = c := by simpa using congrArg (·.head?) h
      exact ha' (this ▸ List.mem_cons_self c t)
  | cons c t ih =>
    intro a' b b' ha ha' h
    cases a' with
    | nil =>
      exfalso
      have : c = sep := by simpa using congrArg (·.head?) h
      exact ha (this ▸ List.mem_cons_self c t)
    | cons c' t' =>
      simp only [List.cons_append, List.cons.injEq] at h
      obtain ⟨rfl, h2⟩ := h
      have := ih (fun hc => ha (List.mem_cons_of_mem _ hc))
        (fun hc => ha' (List.mem_cons_of_mem _ hc)) h2
      exact ⟨by rw [this.1], this.2⟩

theorem splitOnChar_not_mem {sep : Char} {l : List Char} (h : sep ∉ l) :
    splitOnChar sep l = [l] := by
  induction l with
  | nil => rfl
  | cons c t ih =>
    have hc : ¬ c = sep := fun hc => h (hc ▸ List.mem_cons_self c t)
    have ht := ih (fun hm => h (List.mem_cons_of_mem c hm))
    rw [splitOnChar, if_neg hc, ht]

theorem splitOnChar_append {sep : Char} {a : List Char} (b : List Char) (h : sep ∉ a) :
    splitOnChar sep (a ++ sep :: b) = a :: splitOnChar sep b := by
  induction a with
  | nil => simp [splitOnChar]
  | cons c t ih =>
    have hc : ¬ c = sep := fun hc => h (hc ▸ List.mem_cons_self c t)
    have ht := ih (fun hm => h (List.mem_cons_of_mem c hm))
    rw [List.cons_append, splitOnChar, if_neg hc, ht]

/-! ## Lemmas: `toFixed` rendering and `parseFloat` round trips -/

theorem digit_ne_chars {c : Char} (h : isDigitChar c = true) :
    c ≠ '-' ∧ c ≠ '+' ∧ c ≠ '.' ∧ c ≠ '_' ∧ c ≠ ',' ∧ c ≠ '/' := by
  refine ⟨?_, ?_, ?_, ?_, ?_, ?_⟩ <;> (intro h2; rw [h2] at h; revert h; decide)

theorem toFixedChars_scaled (k a : ℕ) :
    toFixedChars k ((a : ℚ) / 10 ^ k) =
      natStr (a / 10 ^ k) ++ '.' :: padZeros k (natStr (a % 10 ^ k)) := by
  have hm : round (((a : ℚ) / 10 ^ k) * 10 ^ k) = (a : ℤ) := by
    rw [div_mul_cancel₀ _ (by positivity : ((10 : ℚ)) ^ k ≠ 0)]
    rw [show ((a : ℚ)) = ((a : ℤ) : ℚ) by push_cast; rfl]
    exact round_intCast _
  rw [toFixedChars]
  show (if round (((a : ℚ) / 10 ^ k) * 10 ^ k) < 0 then ['-'] else []) ++ _ ++ _ = _
  rw [hm]
  rw [if_neg (not_lt.mpr (Int.natCast_nonneg a))]
  simp only [Int.natAbs_ofNat, List.nil_append]

theorem toFixedChars_digit_or_dot (k a : ℕ) :
    ∀ x ∈ toFixedChars k ((a : ℚ) / 10 ^ k), isDigitChar x = true ∨ x = '.' := by
  intro x hx
  rw [toFixedChars_scaled] at hx
  rcases List.mem_append.mp hx with h1 | h2
  · exact Or.inl (natStr_all_digit _ x h1)
  · rcases List.mem_cons.mp h2 with h3 | h4
    · exact Or.inr h3
    · exact Or.inl (padZeros_all_digit _ _ (natStr_all_digit _) x h4)

theorem toFixedChars_ne_underscore (k a : ℕ) :
    ∀ x ∈ toFixedChars k ((a : ℚ) / 10 ^ k), ¬ x = '_' := by
  intro x hx
  rcases toFixedChars_digit_or_dot k a x hx with h | h
  · exact (digit_ne_chars h).2.2.2.1
  · rw [h]; decide

theorem stripSign_digit (c : Char) (t : List Char) (h : isDigitChar c = true) :
    stripSign (c :: t) = (false, c :: t) := by
  rw [stripSign, if_neg (digit_ne_chars h).1, if_neg (digit_ne_chars h).2.1]

theorem parseFloatChars_decimal (k ip fp : ℕ) (hk : 1 ≤ k) (hfp : fp < 10 ^ k) :
    parseFloatChars (natStr ip ++ '.' :: padZeros k (natStr fp)) =
      some ((ip : ℚ) + (fp : ℚ) / 10 ^ k) := by
  have hdigits : ∀ x ∈ natStr ip, isDigitChar x = true := natStr_all_digit ip
  have hpadd : ∀ x ∈ padZeros k (natStr fp), isDigitChar x = true :=
    padZeros_all_digit k _ (natStr_all_digit fp)
  have htw := takeWhile_append_stop isDigitChar (natStr ip) '.' (padZeros k (natStr fp))
    hdigits (by decide)
  have hfw := takeWhile_all isDigitChar (padZeros k (natStr fp)) hpadd
  have hstrip : stripSign (natStr ip ++ '.' :: padZeros k (natStr fp)) =
      (false, natStr ip ++ '.' :: padZeros k (natStr fp)) := by
    cases hns : natStr ip with
    | nil => exact absurd hns (natStr_ne_nil ip)
    | cons c t =>
      have hc : isDigitChar c = true := by
        rw [hns] at hdigits
        exact hdigits c (List.mem_cons_self c t)
      rw [List.cons_append, stripSign_digit c _ hc]
  have hfs : (match '.' :: padZeros k (natStr fp) with
      | c :: r2 => if c = '.' then r2.takeWhile isDigitChar else []
      | [] => ([] : List Char)) = padZeros k (natStr fp) := by
    show (if ('.' : Char) = '.' then _ else _) = _
    rw [if_pos rfl, hfw.1]
  rw [parseFloatChars]
  simp only [hstrip, htw.1, htw.2, hfs, if_true, hfw.1]
  rw [if_neg ?emp]
  case emp =>
    intro hc
    have h1 := (Bool.and_eq_true _ _).mp hc
    rw [List.isEmpty_iff] at h1
    exact natStr_ne_nil ip h1.1
  have hlen : (padZeros k (natStr fp)).length = k :=
    padZeros_length k _ (natStr_length_le fp k hk hfp)
  rw [valDigits_natStr, valDigits_padZeros, valDigits_natStr, hlen]
  rw [if_neg (by simp)]

theorem parse_toFixedChars (k a : ℕ) (hk : 1 ≤ k) :
    parseFloatChars (toFixedChars k ((a : ℚ) / 10 ^ k)) = some ((a : ℚ) / 10 ^ k) := by
  rw [toFixedChars_scaled,
    parseFloatChars_decimal k _ _ hk (Nat.mod_lt a (by positivity))]
  congr 1
  have h1 : (10 : ℕ) ^ k * (a / 10 ^ k) + a % 10 ^ k = a := Nat.div_add_mod a (10 ^ k)
  have h2 : ((10 : ℚ)) ^ k ≠ 0 := by positivity
  field_simp
  have h3 : (((10 : ℕ) ^ k * (a / 10 ^ k) + a % 10 ^ k : ℕ) : ℚ) = (a : ℚ) := by
    rw [h1]
  push_cast at h3
  linarith [h3]

theorem toFixedChars_inj (k : ℕ) (hk : 1 ≤ k) {a b : ℕ}
    (h : toFixedChars k ((a : ℚ) / 10 ^ k) = toFixedChars k ((b : ℚ) / 10 ^ k)) :
    a = b := by
  have h1 := parse_toFixedChars k a hk
  have h2 := parse_toFixedChars k b hk
  rw [h, h2] at h1
  have h3 : ((a : ℚ)) / 10 ^ k = (b : ℚ) / 10 ^ k := by
    exact_mod_cast (Option.some.injEq _ _).mp h1.symm
  rw [div_eq_div_iff (by positivity) (by positivity)] at h3
  have h4 : ((a : ℚ)) = (b : ℚ) :=
    mul_right_cancel₀ (by positivity : ((10 : ℚ)) ^ k ≠ 0) h3
  exact_mod_cast h4

/-! ## Lemmas: grid id strings -/

theorem gridIdString_scaled (a c : ℕ) :
    gridIdString ((a : ℚ) / 10 ^ 3) ((c : ℚ) / 10 ^ 2) =
      String.mk ("grid_".data ++
        (natStr (a / 10 ^ 3) ++ '.' :: padZeros 3 (natStr (a % 10 ^ 3))) ++
          '_' :: (natStr (c / 10 ^ 2) ++ '.' :: padZeros 2 (natStr (c % 10 ^ 2)))) := by
  rw [gridIdString, toFixedChars_scaled, toFixedChars_scaled]

theorem gridIdString_inj {a b c d : ℕ}
    (h : gridIdString ((a : ℚ) / 10 ^ 3) ((c : ℚ) / 10 ^ 2) =
      gridIdString ((b : ℚ) / 10 ^ 3) ((d : ℚ) / 10 ^ 2)) :
    a = b ∧ c = d := by
  rw [gridIdString, gridIdString] at h
  have hd : "grid_".data ++ toFixedChars 3 ((a : ℚ) / 10 ^ 3) ++
      '_' :: toFixedChars 2 ((c : ℚ) / 10 ^ 2) =
      "grid_".data ++ toFixedChars 3 ((b : ℚ) / 10 ^ 3) ++
        '_' :: toFixedChars 2 ((d : ℚ) / 10 ^ 2) := congrArg String.data h
  have h2 := List.append_cancel_left
    ((List.append_assoc _ _ _).symm.trans (hd.trans (List.append_assoc _ _ _)))
  have h3 := append_sep_inj
    (fun hm => toFixedChars_ne_underscore 3 a '_' hm rfl)
    (fun hm => toFixedChars_ne_underscore 3 b '_' hm rfl) h2
  exact ⟨toFixedChars_inj 3 (by norm_num) h3.1, toFixedChars_inj 2 (by norm_num) h3.2⟩

theorem gridIdToCoordinate_gridIdString (a c : ℕ) :
    gridIdToCoordinate (gridIdString ((a : ℚ) / 10 ^ 3) ((c : ℚ) / 10 ^ 2)) =
      some ((a : ℚ) / 10 ^ 3, (c : ℚ) / 10 ^ 2) := by
  rw [gridIdToCoordinate, gridIdString]
  have hdata : (String.mk ("grid_".data ++ toFixedChars 3 ((a : ℚ) / 10 ^ 3) ++
      '_' :: toFixedChars 2 ((c : ℚ) / 10 ^ 2))).data =
      "grid".data ++ '_' :: (toFixedChars 3 ((a : ℚ) / 10 ^ 3) ++
        '_' :: toFixedChars 2 ((c : ℚ) / 10 ^ 2)) := by
    show "grid_".data ++ _ ++ _ = _
    rw [show "grid_".data = "grid".data ++ ['_'] from rfl]
    simp [List.append_assoc]
  rw [hdata]
  rw [splitOnChar_append _ (by decide)]
  rw [splitOnChar_append _ (fun hm => toFixedChars_ne_underscore 3 a '_' hm rfl)]
  rw [splitOnChar_not_mem (fun hm => toFixedChars_ne_underscore 2 c '_' hm rfl)]
  simp only [if_pos rfl, if_true]
  rw [parse_toFixedChars 3 a (by norm_num), parse_toFixedChars 2 c (by norm_num)]

/-! ## Lemmas: closed forms of the enumeration loops -/

theorem taiwanLonLoop_eq (lat : ℚ) : ∀ cur : ℚ,
    taiwanLonLoop lat cur =
      (List.range (⌈(TAIWAN_BOUNDS.maxLon - cur) / GRID_SIZE_LON⌉).toNat).map
        (fun j : ℕ => gridIdString lat (cur + (j : ℚ) * GRID_SIZE_LON)) := by
  intro cur
  induction cur using taiwanLonLoop.induct lat with
  | case1 cur h ih =>
    have hs : (0 : ℚ) < GRID_SIZE_LON := by norm_num [GRID_SIZE_LON]
    rw [taiwanLonLoop, dif_pos h, ih]
    have h3 : ⌈(TAIWAN_BOUNDS.maxLon - (cur + GRID_SIZE_LON)) / GRID_SIZE_LON⌉ =
        ⌈(TAIWAN_BOUNDS.maxLon - cur) / GRID_SIZE_LON⌉ - 1 := by
      rw [show (TAIWAN_BOUNDS.maxLon - (cur + GRID_SIZE_LON)) / GRID_SIZE_LON =
          (TAIWAN_BOUNDS.maxLon - cur) / GRID_SIZE_LON - 1 by
        field_simp
        ring]
      exact Int.ceil_sub_one _
    have h4 : 0 < ⌈(TAIWAN_BOUNDS.maxLon - cur) / GRID_SIZE_LON⌉ :=
      Int.ceil_pos.mpr (div_pos (by linarith) hs)
    have h5 : (⌈(TAIWAN_BOUNDS.maxLon - cur) / GRID_SIZE_LON⌉).toNat =
        (⌈(TAIWAN_BOUNDS.maxLon - (cur + GRID_SIZE_LON)) / GRID_SIZE_LON⌉).toNat + 1 := by
      omega
    rw [h5, List.range_succ_eq_map, List.map_cons, List.map_map]
    refine congrArg₂ List.cons (by norm_num) ?_
    refine List.map_congr_left ?_
    intro j hj
    simp only [Function.comp_apply]
    push_cast
    ring_nf
  | case2 cur h =>
    rw [taiwanLonLoop, dif_neg h]
    have : ⌈(TAIWAN_BOUNDS.maxLon - cur) / GRID_SIZE_LON⌉ ≤ 0 := by
      rw [Int.ceil_le]
      push_cast
      apply div_nonpos_of_nonpos_of_nonneg (by linarith) (by norm_num [GRID_SIZE_LON])
    rw [Int.toNat_of_nonpos this]
    simp

theorem taiwanLatLoop_eq : ∀ cur : ℚ,
    taiwanLatLoop cur =
      (List.range (⌈(TAIWAN_BOUNDS.maxLat - cur) / GRID_SIZE_LAT⌉).toNat).flatMap
        (fun i : ℕ => taiwanLonLoop (cur + (i : ℚ) * GRID_SIZE_LAT)
          ((⌊TAIWAN_BOUNDS.minLon / GRID_SIZE_LON⌋ : ℚ) * GRID_SIZE_LON)) := by
  intro cur
  induction cur using taiwanLatLoop.induct with
  | case1 cur h ih =>
    have hs : (0 : ℚ) < GRID_SIZE_LAT := by norm_num [GRID_SIZE_LAT]
    rw [taiwanLatLoop, dif_pos h, ih]
    have h3 : ⌈(TAIWAN_BOUNDS.maxLat - (cur + GRID_SIZE_LAT)) / GRID_SIZE_LAT⌉ =
        ⌈(TAIWAN_BOUNDS.maxLat - cur) / GRID_SIZE_LAT⌉ - 1 := by
      rw [show (TAIWAN_BOUNDS.maxLat - (cur + GRID_SIZE_LAT)) / GRID_SIZE_LAT =
          (TAIWAN_BOUNDS.maxLat - cur) / GRID_SIZE_LAT - 1 by
        field_simp
        ring]
      exact Int.ceil_sub_one _
    have h4 : 0 < ⌈(TAIWAN_BOUNDS.maxLat - cur) / GRID_SIZE_LAT⌉ :=
      Int.ceil_pos.mpr (div_pos (by linarith) hs)
    have h5 : (⌈(TAIWAN_BOUNDS.maxLat - cur) / GRID_SIZE_LAT⌉).toNat =
        (⌈(TAIWAN_BOUNDS.maxLat - (cur + GRID_SIZE_LAT)) / GRID_SIZE_LAT⌉).toNat + 1 := by
      omega
    rw [h5, List.range_succ_eq_map, List.flatMap_cons, List.flatMap_map]
    refine congrArg₂ List.append (by norm_num) ?_
    refine List.flatMap_congr ?_
    intro i hi
    congr 1
    push_cast
    ring
  | case2 cur h =>
    rw [taiwanLatLoop, dif_neg h]
    have : ⌈(TAIWAN_BOUNDS.maxLat - cur) / GRID_SIZE_LAT⌉ ≤ 0 := by
      rw [Int.ceil_le]
      push_cast
      apply div_nonpos_of_nonpos_of_nonneg (by linarith) (by norm_num [GRID_SIZE_LAT])
    rw [Int.toNat_of_nonpos this]
    simp

theorem visibleLonLoop_eq (maxLon lat : ℚ) : ∀ cur : ℚ,
    visibleLonLoop maxLon lat cur =
      (List.range (⌊(maxLon - cur) / GRID_SIZE_LON⌋ + 1).toNat).map
        (fun j : ℕ => gridIdString lat (cur + (j : ℚ) * GRID_SIZE_LON)) := by
  intro cur
  induction cur using visibleLonLoop.induct maxLon lat with
  | case1 cur h ih =>
    have hs : (0 : ℚ) < GRID_SIZE_LON := by norm_num [GRID_SIZE_LON]
    rw [visibleLonLoop, dif_pos h, ih]
    have h3 : ⌊(maxLon - (cur + GRID_SIZE_LON)) / GRID_SIZE_LON⌋ =
        ⌊(maxLon - cur) / GRID_SIZE_LON⌋ - 1 := by
      rw [show (maxLon - (cur + GRID_SIZE_LON)) / GRID_SIZE_LON =
          (maxLon - cur) / GRID_SIZE_LON - 1 by
        field_simp
        ring]
      exact Int.floor_sub_one _
    have h4 : 0 ≤ ⌊(maxLon - cur) / GRID_SIZE_LON⌋ :=
      Int.floor_nonneg.mpr (div_nonneg (by linarith) (le_of_lt hs))
    have h5 : (⌊(maxLon - cur) / GRID_SIZE_LON⌋ + 1).toNat =
        (⌊(maxLon - (cur + GRID_SIZE_LON)) / GRID_SIZE_LON⌋ + 1).toNat + 1 := by
      omega
    rw [h5, List.range_succ_eq_map, List.map_cons, List.map_map]
    refine congrArg₂ List.cons (by norm_num) ?_
    refine List.map_congr_left ?_
    intro j hj
    simp only [Function.comp_apply]
    push_cast
    ring_nf
  | case2 cur h =>
    rw [visibleLonLoop, dif_neg h]
    have h1 : ⌊(maxLon - cur) / GRID_SIZE_LON⌋ < 0 := by
      rw [Int.floor_lt]
      push_cast
      apply div_neg_of_neg_of_pos (by linarith) (by norm_num [GRID_SIZE_LON])
    rw [Int.toNat_of_nonpos (by omega)]
    simp

theorem visibleLatLoop_eq (maxLat maxLon startGridLon : ℚ) : ∀ cur : ℚ,
    visibleLatLoop maxLat maxLon startGridLon cur =
      (List.range (⌊(maxLat - cur) / GRID_SIZE_LAT⌋ + 1).toNat).flatMap
        (fun i : ℕ => visibleLonLoop maxLon (cur + (i : ℚ) * GRID_SIZE_LAT) startGridLon) := by
  intro cur
  induction cur using visibleLatLoop.induct maxLat maxLon startGridLon with
  | case1 cur h ih =>
    have hs : (0 : ℚ) < GRID_SIZE_LAT := by norm_num [GRID_SIZE_LAT]
    rw [visibleLatLoop, dif_pos h, ih]
    have h3 : ⌊(maxLat - (cur + GRID_SIZE_LAT)) / GRID_SIZE_LAT⌋ =
        ⌊(maxLat - cur) / GRID_SIZE_LAT⌋ - 1 := by
      rw [show (maxLat - (cur + GRID_SIZE_LAT)) / GRID_SIZE_LAT =
          (maxLat - cur) / GRID_SIZE_LAT - 1 by
        field_simp
        ring]
      exact Int.floor_sub_one _
    have h4 : 0 ≤ ⌊(maxLat - cur) / GRID_SIZE_LAT⌋ :=
      Int.floor_nonneg.mpr (div_nonneg (by linarith) (le_of_lt hs))
    have h5 : (⌊(maxLat - cur) / GRID_SIZE_LAT⌋ + 1).toNat =
        (⌊(maxLat - (cur + GRID_SIZE_LAT)) / GRID_SIZE_LAT⌋ + 1).toNat + 1 := by
      omega
    rw [h5, List.range_succ_eq_map, List.flatMap_cons, List.flatMap_map]
    refine congrArg₂ List.append (by norm_num) ?_
    refine List.flatMap_congr ?_
    intro i hi
    congr 1
    push_cast
    ring
  | case2 cur h =>
    rw [visibleLatLoop, dif_neg h]
    have h1 : ⌊(maxLat - cur) / GRID_SIZE_LAT⌋ < 0 := by
      rw [Int.floor_lt]
      push_cast
      apply div_neg_of_neg_of_pos (by linarith) (by norm_num [GRID_SIZE_LAT])
    rw [Int.toNat_of_nonpos (by omega)]
    simp

/-! ## Lemmas: the concrete full-region enumeration -/

theorem floor_minLat : ⌊TAIWAN_BOUNDS.minLat / GRID_SIZE_LAT⌋ = 2388 := by
  norm_num [TAIWAN_BOUNDS, GRID_SIZE_LAT, Int.floor_eq_iff]

theorem floor_minLon : ⌊TAIWAN_BOUNDS.minLon / GRID_SIZE_LON⌋ = 11900 := by
  norm_num [TAIWAN_BOUNDS, GRID_SIZE_LON, Int.floor_eq_iff]

theorem latArg_scaled (i : ℕ) :
    (⌊TAIWAN_BOUNDS.minLat / GRID_SIZE_LAT⌋ : ℚ) * GRID_SIZE_LAT + (i : ℚ) * GRID_SIZE_LAT =
      ((21492 + 9 * i : ℕ) : ℚ) / 10 ^ 3 := by
  rw [floor_minLat]
  push_cast
  rw [GRID_SIZE_LAT]
  norm_num
  ring

theorem lonArg_scaled (j : ℕ) :
    (⌊TAIWAN_BOUNDS.minLon / GRID_SIZE_LON⌋ : ℚ) * GRID_SIZE_LON + (j : ℚ) * GRID_SIZE_LON =
      ((11900 + j : ℕ) : ℚ) / 10 ^ 2 := by
  rw [floor_minLon]
  push_cast
  rw [GRID_SIZE_LON]
  norm_num
  ring

theorem latRow_iff (i : ℕ) :
    (⌊TAIWAN_BOUNDS.minLat / GRID_SIZE_LAT⌋ : ℚ) * GRID_SIZE_LAT + (i : ℚ) * GRID_SIZE_LAT <
      TAIWAN_BOUNDS.maxLat ↔ i < 446 := by
  rw [floor_minLat]
  constructor
  · intro h
    by_contra hc
    have h2 : (446 : ℚ) ≤ (i : ℚ) := by exact_mod_cast not_lt.mp hc
    rw [TAIWAN_BOUNDS] at h
    rw [GRID_SIZE_LAT] at h
    push_cast at h
    norm_num at h
    linarith
  · intro h
    have h2 : (i : ℚ) ≤ 445 := by exact_mod_cast Nat.lt_succ_iff.mp h
    rw [TAIWAN_BOUNDS, GRID_SIZE_LAT]
    push_cast
    norm_num
    linarith

theorem lonCol_iff (j : ℕ) :
    (⌊TAIWAN_BOUNDS.minLon / GRID_SIZE_LON⌋ : ℚ) * GRID_SIZE_LON + (j : ℚ) * GRID_SIZE_LON <
      TAIWAN_BOUNDS.maxLon ↔ j < 350 := by
  rw [floor_minLon]
  constructor
  · intro h
    by_contra hc
    have h2 : (350 : ℚ) ≤ (j : ℚ) := by exact_mod_cast not_lt.mp hc
    rw [TAIWAN_BOUNDS, GRID_SIZE_LON] at h
    push_cast at h
    norm_num at h
    linarith
  · intro h
    have h2 : (j : ℚ) ≤ 349 := by exact_mod_cast Nat.lt_succ_iff.mp h
    rw [TAIWAN_BOUNDS, GRID_SIZE_LON]
    push_cast
    norm_num
    linarith

theorem computeAllTaiwanGridIds_eq :
    computeAllTaiwanGridIds =
      (List.range 446).flatMap (fun i : ℕ =>
        (List.range 350).map (fun j : ℕ =>
          gridIdString (((21492 + 9 * i : ℕ) : ℚ) / 10 ^ 3)
            (((11900 + j : ℕ) : ℚ) / 10 ^ 2))) := by
  rw [computeAllTaiwanGridIds, taiwanLatLoop_eq]
  have h3 : ⌈(TAIWAN_BOUNDS.maxLat -
      (⌊TAIWAN_BOUNDS.minLat / GRID_SIZE_LAT⌋ : ℚ) * GRID_SIZE_LAT) / GRID_SIZE_LAT⌉ =
      (446 : ℤ) := by
    rw [floor_minLat]
    norm_num [TAIWAN_BOUNDS, GRID_SIZE_LAT, Int.ceil_eq_iff]
  rw [h3, show ((446 : ℤ)).toNat = 446 from rfl]
  refine List.flatMap_congr ?_
  intro i hi
  rw [taiwanLonLoop_eq]
  have h4 : ⌈(TAIWAN_BOUNDS.maxLon -
      (⌊TAIWAN_BOUNDS.minLon / GRID_SIZE_LON⌋ : ℚ) * GRID_SIZE_LON) / GRID_SIZE_LON⌉ =
      (350 : ℤ) := by
    rw [floor_minLon]
    norm_num [TAIWAN_BOUNDS, GRID_SIZE_LON, Int.ceil_eq_iff]
  rw [h4, show ((350 : ℤ)).toNat = 350 from rfl]
  refine List.map_congr_left ?_
  intro j hj
  rw [← latArg_scaled, ← lonArg_scaled]

theorem computeAllTaiwanGridIds_length : computeAllTaiwanGridIds.length = 156100 := by
  rw [computeAllTaiwanGridIds_eq, List.length_flatMap]
  have h : ∀ i ∈ List.range 446,
      (List.length ∘ fun i : ℕ => (List.range 350).map (fun j : ℕ =>
        gridIdString (((21492 + 9 * i : ℕ) : ℚ) / 10 ^ 3)
          (((11900 + j : ℕ) : ℚ) / 10 ^ 2))) i = (fun _ : ℕ => (350 : ℕ)) i := by
    intro i _
    simp
  rw [List.map_congr_left h, List.map_const', List.sum_replicate]
  simp

theorem computeAllTaiwanGridIds_nodup : computeAllTaiwanGridIds.Nodup := by
  rw [computeAllTaiwanGridIds_eq, List.flatMap_def, List.nodup_flatten]
  constructor
  · intro l hl
    obtain ⟨i, _, rfl⟩ := List.mem_map.mp hl
    refine List.Nodup.map_on ?_ (List.nodup_range 350)
    intro j hj j' hj' hEq
    have := gridIdString_inj hEq
    omega
  · rw [List.pairwise_map]
    refine List.Pairwise.imp ?_ (List.pairwise_lt_range 446)
    intro i i' hlt s hs hs'
    obtain ⟨j, _, rfl⟩ := List.mem_map.mp hs
    obtain ⟨j', _, hEq⟩ := List.mem_map.mp hs'
    have := gridIdString_inj hEq.symm
    omega

/-! ## Lemmas: in-region cells in scaled form -/

theorem floor_lat_bounds {lat : ℚ} (h1 : TAIWAN_BOUNDS.minLat ≤ lat)
    (h2 : lat ≤ TAIWAN_BOUNDS.maxLat) :
    2388 ≤ ⌊lat / GRID_SIZE_LAT⌋ ∧ ⌊lat / GRID_SIZE_LAT⌋ ≤ 2833 := by
  rw [TAIWAN_BOUNDS] at h1 h2
  simp only at h1 h2
  constructor
  · rw [Int.le_floor]
    rw [le_div_iff (by norm_num [GRID_SIZE_LAT])]
    rw [GRID_SIZE_LAT]
    push_cast
    linarith
  · rw [Int.floor_le_iff]
    rw [div_lt_iff (by norm_num [GRID_SIZE_LAT])]
    rw [GRID_SIZE_LAT]
    push_cast
    linarith

theorem floor_lon_bounds {lon : ℚ} (h1 : TAIWAN_BOUNDS.minLon ≤ lon)
    (h2 : lon ≤ TAIWAN_BOUNDS.maxLon) :
    11900 ≤ ⌊lon / GRID_SIZE_LON⌋ ∧ ⌊lon / GRID_SIZE_LON⌋ ≤ 12250 := by
  rw [TAIWAN_BOUNDS] at h1 h2
  simp only at h1 h2
  constructor
  · rw [Int.le_floor]
    rw [le_div_iff (by norm_num [GRID_SIZE_LON])]
    rw [GRID_SIZE_LON]
    push_cast
    linarith
  · rw [Int.floor_le_iff]
    rw [div_lt_iff (by norm_num [GRID_SIZE_LON])]
    rw [GRID_SIZE_LON]
    push_cast
    linarith

theorem lat_corner_scaled {n : ℤ} (hn : 0 ≤ n) :
    (n : ℚ) * GRID_SIZE_LAT = ((9 * n.toNat : ℕ) : ℚ) / 10 ^ 3 := by
  have h : ((n.toNat : ℕ) : ℚ) = (n : ℚ) := by
    exact_mod_cast congrArg (fun z : ℤ => (z : ℚ)) (Int.toNat_of_nonneg hn)
  rw [GRID_SIZE_LAT]
  push_cast
  rw [h]
  ring

theorem lon_corner_scaled {m : ℤ} (hm : 0 ≤ m) :
    (m : ℚ) * GRID_SIZE_LON = ((m.toNat : ℕ) : ℚ) / 10 ^ 2 := by
  have h : ((m.toNat : ℕ) : ℚ) = (m : ℚ) := by
    exact_mod_cast congrArg (fun z : ℤ => (z : ℚ)) (Int.toNat_of_nonneg hm)
  rw [GRID_SIZE_LON]
  push_cast
  rw [h]
  ring

/-- In-region `coordinateToGridId` in fully scaled (natural-number) form,
together with the range of the cell indices. -/
theorem coordinateToGridId_eq_some {lat lon : ℚ} (h : isInTaiwanBounds lat lon) :
    ∃ n m : ℕ, 2388 ≤ n ∧ n ≤ 2833 ∧ 11900 ≤ m ∧ m ≤ 12250 ∧
      ⌊lat / GRID_SIZE_LAT⌋ = (n : ℤ) ∧ ⌊lon / GRID_SIZE_LON⌋ = (m : ℤ) ∧
      coordinateToGridId lat lon =
        some (gridIdString (((9 * n : ℕ) : ℚ) / 10 ^ 3) (((m : ℕ) : ℚ) / 10 ^ 2)) := by
  obtain ⟨hm1, hm2, hm3, hm4⟩ := h
  obtain ⟨hl1, hl2⟩ := floor_lat_bounds hm1 hm2
  obtain ⟨ho1, ho2⟩ := floor_lon_bounds hm3 hm4
  refine ⟨(⌊lat / GRID_SIZE_LAT⌋).toNat, (⌊lon / GRID_SIZE_LON⌋).toNat,
    by omega, by omega, by omega, by omega,
    (Int.toNat_of_nonneg (by omega)).symm, (Int.toNat_of_nonneg (by omega)).symm, ?_⟩
  rw [coordinateToGridId, if_pos ⟨hm1, hm2, hm3, hm4⟩]
  rw [show ((⌊lat / GRID_SIZE_LAT⌋ : ℚ)) * GRID_SIZE_LAT =
      ((9 * (⌊lat / GRID_SIZE_LAT⌋).toNat : ℕ) : ℚ) / 10 ^ 3 from
    lat_corner_scaled (by omega)]
  rw [show ((⌊lon / GRID_SIZE_LON⌋ : ℚ)) * GRID_SIZE_LON =
      (((⌊lon / GRID_SIZE_LON⌋).toNat : ℕ) : ℚ) / 10 ^ 2 from
    lon_corner_scaled (by omega)]

theorem coordinateToGridId_some_shape {lat lon : ℚ} {s : String}
    (h : coordinateToGridId lat lon = some s) :
    ∃ n m : ℕ, 2388 ≤ n ∧ n ≤ 2833 ∧ 11900 ≤ m ∧ m ≤ 12250 ∧
      s = gridIdString (((9 * n : ℕ) : ℚ) / 10 ^ 3) (((m : ℕ) : ℚ) / 10 ^ 2) := by
  by_cases hb : isInTaiwanBounds lat lon
  · obtain ⟨n, m, b1, b2, b3, b4, _, _, heq⟩ := coordinateToGridId_eq_some hb
    rw [heq] at h
    exact ⟨n, m, b1, b2, b3, b4, (Option.some.injEq _ _).mp h.symm⟩
  · rw [coordinateToGridId, if_neg hb] at h
    exact absurd h (by simp)

/-! ## Lemmas: the explored-cell set -/

theorem exploredStep_comm (acc : Finset String) (a b : String) :
    exploredStep (exploredStep acc a) b = exploredStep (exploredStep acc b) a := by
  unfold exploredStep
  cases recordGridId a <;> cases recordGridId b <;> simp [Finset.Insert.comm]

theorem foldl_exploredStep_perm {l l' : List String} (h : l.Perm l') :
    ∀ acc : Finset String, l.foldl exploredStep acc = l'.foldl exploredStep acc := by
  induction h with
  | nil => intro acc; rfl
  | cons x _ ih => intro acc; simp only [List.foldl_cons, ih]
  | swap x y l => intro acc; simp only [List.foldl_cons, exploredStep_comm]
  | trans _ _ ih1 ih2 => intro acc; rw [ih1, ih2]

theorem computeExploredSet_perm {l l' : List String} (h : l.Perm l') :
    computeExploredSet l = computeExploredSet l' :=
  foldl_exploredStep_perm h ∅

theorem computeExploredSet_append (l1 l2 : List String) :
    computeExploredSet (l1 ++ l2) = l2.foldl exploredStep (computeExploredSet l1) := by
  rw [computeExploredSet, computeExploredSet, List.foldl_append]

theorem computeExploredSet_skip (l1 l2 : List String) (r : String)
    (h : recordGridId r = none) :
    computeExploredSet (l1 ++ r :: l2) = computeExploredSet (l1 ++ l2) := by
  rw [computeExploredSet_append, computeExploredSet_append, List.foldl_cons]
  congr 1
  rw [exploredStep, h]

theorem mem_foldl_exploredStep (l : List String) :
    ∀ (acc : Finset String) (s : String),
      s ∈ l.foldl exploredStep acc → s ∈ acc ∨ ∃ c ∈ l, recordGridId c = some s := by
  induction l with
  | nil => intro acc s hs; exact Or.inl hs
  | cons c t ih =>
    intro acc s hs
    rw [List.foldl_cons] at hs
    rcases ih (exploredStep acc c) s hs with h1 | h2
    · rw [exploredStep] at h1
      cases hg : recordGridId c with
      | none => rw [hg] at h1; exact Or.inl h1
      | some g =>
        rw [hg] at h1
        rcases Finset.mem_insert.mp h1 with h3 | h4
        · exact Or.inr ⟨c, List.mem_cons_self c t, h3 ▸ hg⟩
        · exact Or.inl h4
    · obtain ⟨c', hc', hg⟩ := h2
      exact Or.inr ⟨c', List.mem_cons_of_mem c hc', hg⟩

theorem computeExploredSet_shape (l : List String) :
    ∀ s ∈ computeExploredSet l, ∃ n m : ℕ,
      2388 ≤ n ∧ n ≤ 2833 ∧ 11900 ≤ m ∧ m ≤ 12250 ∧
      s = gridIdString (((9 * n : ℕ) : ℚ) / 10 ^ 3) (((m : ℕ) : ℚ) / 10 ^ 2) := by
  intro s hs
  rcases mem_foldl_exploredStep l ∅ s hs with h1 | h2
  · simp at h1
  · obtain ⟨c, _, hg⟩ := h2
    rw [recordGridId] at hg
    cases hp : parseCoordinatePair c with
    | none => rw [hp] at hg; exact absurd hg (by simp)
    | some p =>
      rw [hp] at hg
      obtain ⟨lat, lon⟩ := p
      exact coordinateToGridId_some_shape hg

set_option maxRecDepth 16000 in
theorem computeExploredSet_card_le (l : List String) :
    (computeExploredSet l).card ≤ 156546 := by
  have hsub : computeExploredSet l ⊆
      ((Finset.Icc 2388 2833) ×ˢ (Finset.Icc 11900 12250)).image
        (fun p : ℕ × ℕ =>
          gridIdString (((9 * p.1 : ℕ) : ℚ) / 10 ^ 3) (((p.2 : ℕ) : ℚ) / 10 ^ 2)) := by
    intro s hs
    obtain ⟨n, m, b1, b2, b3, b4, hEq⟩ := computeExploredSet_shape l s hs
    rw [Finset.mem_image]
    refine ⟨(n, m), ?_, hEq.symm⟩
    rw [Finset.mem_product]
    exact ⟨Finset.mem_Icc.mpr ⟨b1, b2⟩, Finset.mem_Icc.mpr ⟨b3, b4⟩⟩
  calc (computeExploredSet l).card ≤ _ := Finset.card_le_card hsub
  _ ≤ ((Finset.Icc 2388 2833) ×ˢ (Finset.Icc 11900 12250)).card := Finset.card_image_le
  _ = 156546 := by rw [Finset.card_product, Nat.card_Icc, Nat.card_Icc]

/-! ## Lemmas: the percentage computation -/

theorem round_mono {x y : ℚ} (h : x ≤ y) : round x ≤ round y := by
  rw [round_eq, round_eq]
  exact Int.floor_le_floor (by linarith)

theorem mistPercentage_eq (l : List String) :
    mistPercentage l = round ((((computeExploredSet l).card : ℚ) / 156100) * 100) := by
  rw [mistPercentage]
  simp only [computeAllTaiwanGridIds_length]
  norm_num

theorem mistPercentage_nonneg (l : List String) : 0 ≤ mistPercentage l := by
  rw [mistPercentage_eq, round_eq]
  apply Int.le_floor.mpr
  push_cast
  positivity

theorem mistPercentage_le_100 (l : List String) : mistPercentage l ≤ 100 := by
  rw [mistPercentage_eq, round_eq]
  have h2 : ((computeExploredSet l).card : ℚ) ≤ 156546 := by
    exact_mod_cast computeExploredSet_card_le l
  rw [Int.floor_le_iff]
  push_cast
  linarith

/-! ## Lemmas: concrete evaluations -/

theorem coordinateToGridId_concrete {lat lon : ℚ} (n m : ℤ) (h : isInTaiwanBounds lat lon)
    (hn : ⌊lat / GRID_SIZE_LAT⌋ = n) (hm : ⌊lon / GRID_SIZE_LON⌋ = m)
    (hn0 : 0 ≤ n) (hm0 : 0 ≤ m) :
    coordinateToGridId lat lon =
      some (gridIdString (((9 * n.toNat : ℕ) : ℚ) / 10 ^ 3)
        (((m.toNat : ℕ) : ℚ) / 10 ^ 2)) := by
  rw [coordinateToGridId, if_pos h, hn, hm, lat_corner_scaled hn0, lon_corner_scaled hm0]

theorem decimal_no_comma (ip k fp : ℕ) :
    (',' : Char) ∉ natStr ip ++ '.' :: padZeros k (natStr fp) := by
  intro hmem
  rcases List.mem_append.mp hmem with h1 | h2
  · exact (digit_ne_chars (natStr_all_digit ip ',' h1)).2.2.2.2.1 rfl
  · rcases List.mem_cons.mp h2 with h3 | h4
    · exact absurd h3 (by decide)
    · exact (digit_ne_chars
        (padZeros_all_digit k _ (natStr_all_digit fp) ',' h4)).2.2.2.2.1 rfl

theorem parseCoordinatePair_decimal (ipa fpa ipb fpb ka kb : ℕ) (s : String)
    (hka : 1 ≤ ka) (hkb : 1 ≤ kb) (ha : fpa < 10 ^ ka) (hb : fpb < 10 ^ kb)
    (hdata : s.data = (natStr ipa ++ '.' :: padZeros ka (natStr fpa)) ++ ',' ::
      (natStr ipb ++ '.' :: padZeros kb (natStr fpb))) :
    parseCoordinatePair s =
      some ((ipa : ℚ) + (fpa : ℚ) / 10 ^ ka, (ipb : ℚ) + (fpb : ℚ) / 10 ^ kb) := by
  rw [parseCoordinatePair, hdata]
  rw [splitOnChar_append _ (decimal_no_comma ipa ka fpa)]
  rw [splitOnChar_not_mem (decimal_no_comma ipb kb fpb)]
  show (match parseFloatChars (natStr ipa ++ '.' :: padZeros ka (natStr fpa)),
      parseFloatChars (natStr ipb ++ '.' :: padZeros kb (natStr fpb)) with
    | some lat, some lon => some (lat, lon)
    | _, _ => none) = _
  rw [parseFloatChars_decimal ka ipa fpa hka ha, parseFloatChars_decimal kb ipb fpb hkb hb]

theorem recordGridId_dedup_a :
    recordGridId "25.0330,121.5654" = some "grid_25.029_121.56" := by
  rw [recordGridId,
    parseCoordinatePair_decimal 25 330 121 5654 4 4 _ (by norm_num) (by norm_num)
      (by norm_num) (by norm_num) (by decide)]
  show coordinateToGridId ((25 : ℚ) + 330 / 10 ^ 4) ((121 : ℚ) + 5654 / 10 ^ 4) = _
  rw [coordinateToGridId_concrete 2781 12156
    (by norm_num [isInTaiwanBounds, TAIWAN_BOUNDS])
    (by norm_num [GRID_SIZE_LAT, Int.floor_eq_iff])
    (by norm_num [GRID_SIZE_LON, Int.floor_eq_iff]) (by norm_num) (by norm_num)]
  congr 1
  rw [show (9 * ((2781 : ℤ)).toNat : ℕ) = 25029 from rfl,
    show ((((12156 : ℤ)).toNat : ℕ)) = 12156 from rfl]
  rw [gridIdString_scaled]
  decide

theorem recordGridId_dedup_b :
    recordGridId "25.0335,121.5658" = some "grid_25.029_121.56" := by
  rw [recordGridId,
    parseCoordinatePair_decimal 25 335 121 5658 4 4 _ (by norm_num) (by norm_num)
      (by norm_num) (by norm_num) (by decide)]
  show coordinateToGridId ((25 : ℚ) + 335 / 10 ^ 4) ((121 : ℚ) + 5658 / 10 ^ 4) = _
  rw [coordinateToGridId_concrete 2781 12156
    (by norm_num [isInTaiwanBounds, TAIWAN_BOUNDS])
    (by norm_num [GRID_SIZE_LAT, Int.floor_eq_iff])
    (by norm_num [GRID_SIZE_LON, Int.floor_eq_iff]) (by norm_num) (by norm_num)]
  congr 1
  rw [show (9 * ((2781 : ℤ)).toNat : ℕ) = 25029 from rfl,
    show ((((12156 : ℤ)).toNat : ℕ)) = 12156 from rfl]
  rw [gridIdString_scaled]
  decide

/-! ## Claim theorems -/

/-- **C4** (amended): the mist-percentage computation equals
`computeCoveragePercentage` applied to the explored-set size and the
length of the full-region enumeration; its value always lies in
`[0, 100]`; `totalCellCount = 0` yields `0`; and 1 explored cell of 4
total yields exactly 25.  (The claim's exact formula `100·|E|/total` is
amended to `Math.round(100·|E|/total)` — see the counterexample.) -/
theorem C4_coverage_percentage :
    (∀ l : List String, mistPercentage l =
        computeCoveragePercentage (computeExploredSet l).card
          computeAllTaiwanGridIds.length) ∧
    (∀ l : List String, 0 ≤ mistPercentage l ∧ mistPercentage l ≤ 100) ∧
    (∀ e : ℕ, computeCoveragePercentage e 0 = 0) ∧
    computeCoveragePercentage 1 4 = 25 := by
  refine ⟨fun l => rfl,
    fun l => ⟨mistPercentage_nonneg l, mistPercentage_le_100 l⟩,
    fun e => by rw [computeCoveragePercentage, if_pos rfl], ?_⟩
  rw [computeCoveragePercentage, if_neg (by norm_num), round_eq]
  norm_num [Int.floor_eq_iff]

/-- **C4 counterexample**: the handler rounds with `Math.round`, so with
3 total cells and 1 explored it returns `33`, which differs from the
claimed exact value `100·1/3`. -/
theorem C4_counterexample :
    computeCoveragePercentage 1 3 = 33 ∧
      ((computeCoveragePercentage 1 3 : ℚ) ≠ 100 * 1 / 3) := by
  have h : computeCoveragePercentage 1 3 = 33 := by
    rw [computeCoveragePercentage, if_neg (by norm_num), round_eq]
    norm_num [Int.floor_eq_iff]
  refine ⟨h, ?_⟩
  rw [h]
  norm_num

/-- **C6** (amended): adding a visit record never decreases the rounded
coverage percentage, and the percentage is unchanged whenever the new
record is skipped or maps to an already-explored cell.  (The claim's
"equal **iff** already explored or skipped" is amended to this one
direction: rounding can also absorb a genuinely new cell — see the
counterexample.) -/
theorem C6_coverage_monotone :
    ∀ (l : List String) (r : String),
      mistPercentage l ≤ mistPercentage (l ++ [r]) ∧
      ((recordGridId r = none ∨
          ∃ g, recordGridId r = some g ∧ g ∈ computeExploredSet l) →
        mistPercentage (l ++ [r]) = mistPercentage l) := by
  intro l r
  have hset : computeExploredSet (l ++ [r]) = exploredStep (computeExploredSet l) r := by
    rw [computeExploredSet_append]
    rfl
  constructor
  · rw [mistPercentage_eq, mistPercentage_eq, hset]
    apply round_mono
    have hcard : (computeExploredSet l).card ≤
        (exploredStep (computeExploredSet l) r).card := by
      rw [exploredStep]
      cases recordGridId r with
      | none => exact le_rfl
      | some g => exact Finset.card_le_card (Finset.subset_insert g _)
    have h2 : ((computeExploredSet l).card : ℚ) ≤
        ((exploredStep (computeExploredSet l) r).card : ℚ) := by exact_mod_cast hcard
    linarith
  · intro hr
    rw [mistPercentage_eq, mistPercentage_eq, hset, exploredStep]
    rcases hr with h | ⟨g, hg, hmem⟩
    · rw [h]
    · rw [hg]
      show round (((insert g (computeExploredSet l)).card : ℚ) / 156100 * 100) = _
      rw [Finset.insert_eq_self.mpr hmem]

/-- **C6 witness**: monotonicity and the skip case at a concrete record. -/
theorem C6_coverage_monotone_witness :
    mistPercentage [] ≤ mistPercentage ([] ++ ["25.0330,121.5654"]) ∧
      mistPercentage (["25.0330,121.5654"] ++ ["junk"]) =
        mistPercentage ["25.0330,121.5654"] :=
  ⟨(C6_coverage_monotone [] "25.0330,121.5654").1,
    (C6_coverage_monotone ["25.0330,121.5654"] "junk").2 (Or.inl rfl)⟩

/-- **C6 counterexample**: with the full region's 156100 cells, the very
first visit record maps to a brand-new cell yet leaves the rounded
percentage unchanged at 0, refuting the claimed "equal **iff**
already-explored-or-skipped". -/
theorem C6_counterexample :
    mistPercentage ([] ++ ["25.0330,121.5654"]) = mistPercentage [] ∧
    recordGridId "25.0330,121.5654" = some "grid_25.029_121.56" ∧
    "grid_25.029_121.56" ∉ computeExploredSet ([] : List String) := by
  refine ⟨?_, recordGridId_dedup_a, by simp [computeExploredSet]⟩
  have h1 : computeExploredSet ([] ++ ["25.0330,121.5654"]) =
      insert "grid_25.029_121.56" (∅ : Finset String) := by
    rw [computeExploredSet_append]
    show exploredStep (computeExploredSet []) "25.0330,121.5654" = _
    rw [exploredStep, recordGridId_dedup_a]
    rfl
  rw [mistPercentage_eq, mistPercentage_eq, h1]
  show round (((1 : ℚ) / 156100) * 100) = round (((Finset.card ∅ : ℚ) / 156100) * 100)
  rw [round_eq, round_eq]
  norm_num [Int.floor_eq_iff]

/-- **C8**: the explored-set aggregation never fails: a record whose
coordinate does not parse to an in-region cell is silently skipped, the
result is order-independent, and the two same-cell records of the dedup
scenario produce a set of size 1. -/
theorem C8_explored_set_robust :
    (∀ (l1 l2 : List String) (r : String), recordGridId r = none →
        computeExploredSet (l1 ++ r :: l2) = computeExploredSet (l1 ++ l2)) ∧
    (∀ l l' : List String, l.Perm l' → computeExploredSet l = computeExploredSet l') ∧
    (computeExploredSet ["25.0330,121.5654", "25.0335,121.5658"]).card = 1 := by
  refine ⟨computeExploredSet_skip, fun l l' h => computeExploredSet_perm h, ?_⟩
  have h1 : computeExploredSet ["25.0330,121.5654", "25.0335,121.5658"] =
      insert "grid_25.029_121.56" (insert "grid_25.029_121.56" (∅ : Finset String)) := by
    show exploredStep (exploredStep (∅ : Finset String) "25.0330,121.5654")
        "25.0335,121.5658" = _
    have hinner : exploredStep (∅ : Finset String) "25.0330,121.5654" =
        insert "grid_25.029_121.56" (∅ : Finset String) := by
      rw [exploredStep, recordGridId_dedup_a]
    rw [hinner, exploredStep, recordGridId_dedup_b]
  rw [h1, Finset.insert_idem]
  rfl

/-- **C8 witness**: the skip clause applied to an unparsable record, and
order independence applied to the two dedup records. -/
theorem C8_explored_set_robust_witness :
    computeExploredSet ([] ++ "junk-record" :: []) = computeExploredSet ([] ++ []) ∧
    computeExploredSet ["25.0330,121.5654", "25.0335,121.5658"] =
      computeExploredSet ["25.0335,121.5658", "25.0330,121.5654"] :=
  ⟨C8_explored_set_robust.1 [] [] "junk-record" rfl,
    C8_explored_set_robust.2.1 _ _ (List.Perm.swap _ _ _)⟩

theorem mem_computeAll_first : "grid_21.492_119.00" ∈ computeAllTaiwanGridIds := by
  rw [computeAllTaiwanGridIds_eq, List.mem_flatMap]
  refine ⟨0, List.mem_range.mpr (by norm_num), List.mem_map.mpr ⟨0,
    List.mem_range.mpr (by norm_num), ?_⟩⟩
  rw [show (21492 + 9 * 0 : ℕ) = 21492 from rfl, show (11900 + 0 : ℕ) = 11900 from rfl]
  rw [gridIdString_scaled]
  decide

/-- **C3** (amended): the full-region enumeration is exactly the
row-major grid of cells stepped by `GRID_SIZE_LAT`/`GRID_SIZE_LON` from
the floor-aligned start, right-open at the top/east bounds (446 × 350
cells), with no duplicates, and the cache returns the identical list on
every subsequent call.  (The claim's "lower-left corner lies in
`[minLat, maxLat)`" is amended to "lies in `[floor-aligned start,
maxLat)`": the floor-aligned first row sits below `minLat` — see the
counterexample.) -/
theorem C3_full_region_enumeration :
    computeAllTaiwanGridIds =
      (List.range 446).flatMap (fun i : ℕ =>
        (List.range 350).map (fun j : ℕ =>
          gridIdString
            ((⌊TAIWAN_BOUNDS.minLat / GRID_SIZE_LAT⌋ : ℚ) * GRID_SIZE_LAT +
              (i : ℚ) * GRID_SIZE_LAT)
            ((⌊TAIWAN_BOUNDS.minLon / GRID_SIZE_LON⌋ : ℚ) * GRID_SIZE_LON +
              (j : ℚ) * GRID_SIZE_LON))) ∧
    (∀ s : String, s ∈ computeAllTaiwanGridIds ↔ ∃ i j : ℕ,
        (⌊TAIWAN_BOUNDS.minLat / GRID_SIZE_LAT⌋ : ℚ) * GRID_SIZE_LAT +
            (i : ℚ) * GRID_SIZE_LAT < TAIWAN_BOUNDS.maxLat ∧
        (⌊TAIWAN_BOUNDS.minLon / GRID_SIZE_LON⌋ : ℚ) * GRID_SIZE_LON +
            (j : ℚ) * GRID_SIZE_LON < TAIWAN_BOUNDS.maxLon ∧
        s = gridIdString
          ((⌊TAIWAN_BOUNDS.minLat / GRID_SIZE_LAT⌋ : ℚ) * GRID_SIZE_LAT +
            (i : ℚ) * GRID_SIZE_LAT)
          ((⌊TAIWAN_BOUNDS.minLon / GRID_SIZE_LON⌋ : ℚ) * GRID_SIZE_LON +
            (j : ℚ) * GRID_SIZE_LON)) ∧
    computeAllTaiwanGridIds.Nodup ∧
    getAllTaiwanGridIds none = (computeAllTaiwanGridIds, some computeAllTaiwanGridIds) ∧
    (∀ cached : List String, getAllTaiwanGridIds (some cached) = (cached, some cached)) := by
  have hmain : computeAllTaiwanGridIds =
      (List.range 446).flatMap (fun i : ℕ =>
        (List.range 350).map (fun j : ℕ =>
          gridIdString
            ((⌊TAIWAN_BOUNDS.minLat / GRID_SIZE_LAT⌋ : ℚ) * GRID_SIZE_LAT +
              (i : ℚ) * GRID_SIZE_LAT)
            ((⌊TAIWAN_BOUNDS.minLon / GRID_SIZE_LON⌋ : ℚ) * GRID_SIZE_LON +
              (j : ℚ) * GRID_SIZE_LON))) := by
    simp only [latArg_scaled, lonArg_scaled]
    exact computeAllTaiwanGridIds_eq
  refine ⟨hmain, ?_, computeAllTaiwanGridIds_nodup, rfl, fun cached => rfl⟩
  intro s
  rw [hmain, List.mem_flatMap]
  constructor
  · rintro ⟨i, hi, hs⟩
    rw [List.mem_map] at hs
    obtain ⟨j, hj, rfl⟩ := hs
    exact ⟨i, j, (latRow_iff i).mpr (List.mem_range.mp hi),
      (lonCol_iff j).mpr (List.mem_range.mp hj), rfl⟩
  · rintro ⟨i, j, h1, h2, rfl⟩
    exact ⟨i, List.mem_range.mpr ((latRow_iff i).mp h1),
      List.mem_map.mpr ⟨j, List.mem_range.mpr ((lonCol_iff j).mp h2), rfl⟩⟩

/-- **C3 counterexample**: the head row of the enumeration has corner
latitude 21.492, strictly below `minLat = 21.5`, so the enumerated
corners do **not** all lie in `[minLat, maxLat)` as claimed. -/
theorem C3_counterexample :
    "grid_21.492_119.00" ∈ computeAllTaiwanGridIds ∧
    gridIdToCoordinate "grid_21.492_119.00" = some (21.492, 119) ∧
    ¬ (TAIWAN_BOUNDS.minLat ≤ (21.492 : ℚ)) := by
  refine ⟨mem_computeAll_first, ?_, by norm_num [TAIWAN_BOUNDS]⟩
  have h : "grid_21.492_119.00" =
      gridIdString (((21492 : ℕ) : ℚ) / 10 ^ 3) (((11900 : ℕ) : ℚ) / 10 ^ 2) := by
    rw [gridIdString_scaled]
    decide
  rw [h, gridIdToCoordinate_gridIdString]
  norm_num

/-- Closed form of `getVisibleGridIds`: clamp, floor the start, then an
inclusive (`⌊·⌋ + 1`-count) row-major enumeration. -/
theorem getVisibleGridIds_eq (b : ViewBounds) :
    getVisibleGridIds b =
      (List.range ((⌊(min b.north TAIWAN_BOUNDS.maxLat -
          (⌊max b.south TAIWAN_BOUNDS.minLat / GRID_SIZE_LAT⌋ : ℚ) * GRID_SIZE_LAT) /
          GRID_SIZE_LAT⌋ + 1).toNat)).flatMap (fun i : ℕ =>
        (List.range ((⌊(min b.east TAIWAN_BOUNDS.maxLon -
            (⌊max b.west TAIWAN_BOUNDS.minLon / GRID_SIZE_LON⌋ : ℚ) * GRID_SIZE_LON) /
            GRID_SIZE_LON⌋ + 1).toNat)).map (fun j : ℕ =>
          gridIdString
            ((⌊max b.south TAIWAN_BOUNDS.minLat / GRID_SIZE_LAT⌋ : ℚ) * GRID_SIZE_LAT +
              (i : ℚ) * GRID_SIZE_LAT)
            ((⌊max b.west TAIWAN_BOUNDS.minLon / GRID_SIZE_LON⌋ : ℚ) * GRID_SIZE_LON +
              (j : ℚ) * GRID_SIZE_LON))) := by
  rw [getVisibleGridIds]
  rw [visibleLatLoop_eq]
  refine List.flatMap_congr ?_
  intro i _
  rw [visibleLonLoop_eq]

/-- **C7** (amended): `getVisibleGridIds` enumerates, row-major and
inclusive of the upper bound row/column, the grid restricted to the
viewport clamped to the region; for a viewport containing the whole
region it contains every id of the full-region enumeration.  (The
claim's "a viewport fully outside the region yields the empty sequence"
is refuted by the counterexample: flooring the clamped start can re-enter
a degenerate clamped interval just outside the region.) -/
theorem C7_viewport_enumeration :
    (∀ b : ViewBounds,
      getVisibleGridIds b =
        (List.range ((⌊(min b.north TAIWAN_BOUNDS.maxLat -
            (⌊max b.south TAIWAN_BOUNDS.minLat / GRID_SIZE_LAT⌋ : ℚ) * GRID_SIZE_LAT) /
            GRID_SIZE_LAT⌋ + 1).toNat)).flatMap (fun i : ℕ =>
          (List.range ((⌊(min b.east TAIWAN_BOUNDS.maxLon -
              (⌊max b.west TAIWAN_BOUNDS.minLon / GRID_SIZE_LON⌋ : ℚ) * GRID_SIZE_LON) /
              GRID_SIZE_LON⌋ + 1).toNat)).map (fun j : ℕ =>
            gridIdString
              ((⌊max b.south TAIWAN_BOUNDS.minLat / GRID_SIZE_LAT⌋ : ℚ) * GRID_SIZE_LAT +
                (i : ℚ) * GRID_SIZE_LAT)
              ((⌊max b.west TAIWAN_BOUNDS.minLon / GRID_SIZE_LON⌋ : ℚ) * GRID_SIZE_LON +
                (j : ℚ) * GRID_SIZE_LON)))) ∧
    (∀ b : ViewBounds, b.south ≤ TAIWAN_BOUNDS.minLat → TAIWAN_BOUNDS.maxLat ≤ b.north →
      b.west ≤ TAIWAN_BOUNDS.minLon → TAIWAN_BOUNDS.maxLon ≤ b.east →
      ∀ s ∈ computeAllTaiwanGridIds, s ∈ getVisibleGridIds b) := by
  refine ⟨getVisibleGridIds_eq, ?_⟩
  intro b h1 h2 h3 h4 s hs
  rw [computeAllTaiwanGridIds_eq, List.mem_flatMap] at hs
  obtain ⟨i, hi, hs⟩ := hs
  rw [List.mem_map] at hs
  obtain ⟨j, hj, rfl⟩ := hs
  rw [List.mem_range] at hi hj
  rw [getVisibleGridIds_eq]
  rw [max_eq_right h1, min_eq_right h2, max_eq_right h3, min_eq_right h4]
  have hlatcount : (⌊(TAIWAN_BOUNDS.maxLat -
      (⌊TAIWAN_BOUNDS.minLat / GRID_SIZE_LAT⌋ : ℚ) * GRID_SIZE_LAT) /
      GRID_SIZE_LAT⌋ + 1).toNat = 446 := by
    rw [floor_minLat]
    have h : ⌊(TAIWAN_BOUNDS.maxLat - ((2388 : ℤ) : ℚ) * GRID_SIZE_LAT) /
        GRID_SIZE_LAT⌋ = 445 := by
      norm_num [TAIWAN_BOUNDS, GRID_SIZE_LAT, Int.floor_eq_iff]
    rw [h]
    rfl
  have hloncount : (⌊(TAIWAN_BOUNDS.maxLon -
      (⌊TAIWAN_BOUNDS.minLon / GRID_SIZE_LON⌋ : ℚ) * GRID_SIZE_LON) /
      GRID_SIZE_LON⌋ + 1).toNat = 351 := by
    rw [floor_minLon]
    have h : ⌊(TAIWAN_BOUNDS.maxLon - ((11900 : ℤ) : ℚ) * GRID_SIZE_LON) /
        GRID_SIZE_LON⌋ = 350 := by
      norm_num [TAIWAN_BOUNDS, GRID_SIZE_LON, Int.floor_eq_iff]
    rw [h]
    rfl
  rw [hlatcount, List.mem_flatMap]
  refine ⟨i, List.mem_range.mpr hi, ?_⟩
  rw [hloncount, List.mem_map]
  refine ⟨j, List.mem_range.mpr (by omega), ?_⟩
  rw [latArg_scaled, lonArg_scaled]

/-- **C7 witness**: a viewport containing the whole region contains the
first id of the full-region enumeration. -/
theorem C7_viewport_enumeration_witness :
    "grid_21.492_119.00" ∈ getVisibleGridIds ⟨90, 0, 180, 0⟩ :=
  C7_viewport_enumeration.2 ⟨90, 0, 180, 0⟩ (by norm_num [TAIWAN_BOUNDS])
    (by norm_num [TAIWAN_BOUNDS]) (by norm_num [TAIWAN_BOUNDS])
    (by norm_num [TAIWAN_BOUNDS]) _ mem_computeAll_first

/-- **C7 counterexample**: the viewport `[21.49, 21.495] × [121, 121.005]`
is disjoint from the region (its north edge is below `minLat = 21.5`),
yet `getVisibleGridIds` returns one cell: clamping yields the degenerate
band `[21.5, 21.495]`, and flooring the start down to 21.492 re-enters
it. -/
theorem C7_counterexample :
    getVisibleGridIds ⟨21.495, 21.49, 121.005, 121⟩ = ["grid_21.492_121.00"] ∧
    (21.495 : ℚ) < TAIWAN_BOUNDS.minLat := by
  refine ⟨?_, by norm_num [TAIWAN_BOUNDS]⟩
  rw [getVisibleGridIds_eq]
  have hN : ((⟨21.495, 21.49, 121.005, 121⟩ : ViewBounds)).north = 21.495 := rfl
  have hS : ((⟨21.495, 21.49, 121.005, 121⟩ : ViewBounds)).south = 21.49 := rfl
  have hE : ((⟨21.495, 21.49, 121.005, 121⟩ : ViewBounds)).east = 121.005 := rfl
  have hW : ((⟨21.495, 21.49, 121.005, 121⟩ : ViewBounds)).west = 121 := rfl
  rw [hN, hS, hE, hW]
  have hclampS : max (21.49 : ℚ) TAIWAN_BOUNDS.minLat = 21.5 := by
    rw [show TAIWAN_BOUNDS.minLat = (21.5 : ℚ) by norm_num [TAIWAN_BOUNDS]]
    exact max_eq_right (by norm_num)
  have hclampN : min (21.495 : ℚ) TAIWAN_BOUNDS.maxLat = 21.495 := by
    rw [show TAIWAN_BOUNDS.maxLat = (25.5 : ℚ) by norm_num [TAIWAN_BOUNDS]]
    exact min_eq_left (by norm_num)
  have hclampW : max (121 : ℚ) TAIWAN_BOUNDS.minLon = 121 := by
    rw [show TAIWAN_BOUNDS.minLon = (119 : ℚ) by norm_num [TAIWAN_BOUNDS]]
    exact max_eq_left (by norm_num)
  have hclampE : min (121.005 : ℚ) TAIWAN_BOUNDS.maxLon = 121.005 := by
    rw [show TAIWAN_BOUNDS.maxLon = (122.5 : ℚ) by norm_num [TAIWAN_BOUNDS]]
    exact min_eq_left (by norm_num)
  rw [hclampS, hclampN, hclampW, hclampE]
  have hfS : ⌊(21.5 : ℚ) / GRID_SIZE_LAT⌋ = 2388 := by
    norm_num [GRID_SIZE_LAT, Int.floor_eq_iff]
  have hfW : ⌊(121 : ℚ) / GRID_SIZE_LON⌋ = 12100 := by
    norm_num [GRID_SIZE_LON, Int.floor_eq_iff]
  rw [hfS, hfW]
  have hcountLat : (⌊((21.495 : ℚ) - ((2388 : ℤ) : ℚ) * GRID_SIZE_LAT) /
      GRID_SIZE_LAT⌋ + 1).toNat = 1 := by
    have h : ⌊((21.495 : ℚ) - ((2388 : ℤ) : ℚ) * GRID_SIZE_LAT) / GRID_SIZE_LAT⌋ = 0 := by
      norm_num [GRID_SIZE_LAT, Int.floor_eq_iff]
    rw [h]
    rfl
  have hcountLon : (⌊((121.005 : ℚ) - ((12100 : ℤ) : ℚ) * GRID_SIZE_LON) /
      GRID_SIZE_LON⌋ + 1).toNat = 1 := by
    have h : ⌊((121.005 : ℚ) - ((12100 : ℤ) : ℚ) * GRID_SIZE_LON) / GRID_SIZE_LON⌋ = 0 := by
      norm_num [GRID_SIZE_LON, Int.floor_eq_iff]
    rw [h]
    rfl
  rw [hcountLat, hcountLon, show List.range 1 = [0] from rfl]
  simp only [List.flatMap_cons, List.flatMap_nil, List.map_cons, List.map_nil, List.append_nil]
  have harg1 : ((2388 : ℤ) : ℚ) * GRID_SIZE_LAT + ((0 : ℕ) : ℚ) * GRID_SIZE_LAT =
      ((21492 : ℕ) : ℚ) / 10 ^ 3 := by
    rw [GRID_SIZE_LAT]
    push_cast
    norm_num
  have harg2 : ((12100 : ℤ) : ℚ) * GRID_SIZE_LON + ((0 : ℕ) : ℚ) * GRID_SIZE_LON =
      ((12100 : ℕ) : ℚ) / 10 ^ 2 := by
    rw [GRID_SIZE_LON]
    push_cast
    norm_num
  rw [harg1, harg2, gridIdString_scaled]
  decide

/-! ## Lemmas: re-flooring scaled corners and centers -/

theorem floor_scaled_lat (n : ℕ) :
    ⌊(((9 * n : ℕ) : ℚ) / 10 ^ 3) / GRID_SIZE_LAT⌋ = (n : ℤ) := by
  have h : ((9 * n : ℕ) : ℚ) / 10 ^ 3 / GRID_SIZE_LAT = (n : ℚ) := by
    rw [GRID_SIZE_LAT]
    push_cast
    field_simp
    ring
  rw [h]
  exact Int.floor_natCast n

theorem floor_scaled_lon (m : ℕ) :
    ⌊(((m : ℕ) : ℚ) / 10 ^ 2) / GRID_SIZE_LON⌋ = (m : ℤ) := by
  have h : ((m : ℕ) : ℚ) / 10 ^ 2 / GRID_SIZE_LON = (m : ℚ) := by
    rw [GRID_SIZE_LON]
    push_cast
    field_simp
    ring
  rw [h]
  exact Int.floor_natCast m

theorem floor_add_half_nat (n : ℕ) : ⌊(n : ℚ) + 1 / 2⌋ = (n : ℤ) := by
  apply Int.floor_eq_iff.mpr
  push_cast
  constructor <;> linarith

theorem floor_center_lat (n : ℕ) :
    ⌊(((9 * n : ℕ) : ℚ) / 10 ^ 3 + GRID_SIZE_LAT / 2) / GRID_SIZE_LAT⌋ = (n : ℤ) := by
  have h : (((9 * n : ℕ) : ℚ) / 10 ^ 3 + GRID_SIZE_LAT / 2) / GRID_SIZE_LAT =
      (n : ℚ) + 1 / 2 := by
    rw [GRID_SIZE_LAT]
    push_cast
    field_simp
    ring
  rw [h]
  exact floor_add_half_nat n

theorem floor_center_lon (m : ℕ) :
    ⌊(((m : ℕ) : ℚ) / 10 ^ 2 + GRID_SIZE_LON / 2) / GRID_SIZE_LON⌋ = (m : ℤ) := by
  have h : (((m : ℕ) : ℚ) / 10 ^ 2 + GRID_SIZE_LON / 2) / GRID_SIZE_LON =
      (m : ℚ) + 1 / 2 := by
    rw [GRID_SIZE_LON]
    push_cast
    field_simp
    ring
  rw [h]
  exact floor_add_half_nat m

theorem nat_corner_lat (n : ℕ) :
    ((n : ℤ) : ℚ) * GRID_SIZE_LAT = ((9 * n : ℕ) : ℚ) / 10 ^ 3 := by
  rw [GRID_SIZE_LAT]
  push_cast
  ring

theorem nat_corner_lon (m : ℕ) :
    ((m : ℤ) : ℚ) * GRID_SIZE_LON = ((m : ℕ) : ℚ) / 10 ^ 2 := by
  rw [GRID_SIZE_LON]
  push_cast
  ring

theorem coordinateToGridId_23_121 :
    coordinateToGridId 23 121 = some "grid_22.995_121.00" := by
  rw [coordinateToGridId_concrete 2555 12100
    (by norm_num [isInTaiwanBounds, TAIWAN_BOUNDS])
    (by norm_num [GRID_SIZE_LAT, Int.floor_eq_iff])
    (by norm_num [GRID_SIZE_LON, Int.floor_eq_iff]) (by norm_num) (by norm_num)]
  congr 1
  rw [show (9 * ((2555 : ℤ)).toNat : ℕ) = 22995 from rfl,
    show ((((12100 : ℤ)).toNat : ℕ)) = 12100 from rfl]
  rw [gridIdString_scaled]
  decide

/-- **C1**: `coordinateToGridId` is `none` exactly off the inclusive
region `[21.5, 25.5] × [119, 122.5]`, and on it returns the id built
from the true-floor-aligned corner formatted to 3/2 fixed decimals. -/
theorem C1_cell_id_total :
    ∀ lat lon : ℚ,
      (coordinateToGridId lat lon = none ↔
        ¬ ((21.5 : ℚ) ≤ lat ∧ lat ≤ 25.5 ∧ (119 : ℚ) ≤ lon ∧ lon ≤ 122.5)) ∧
      (((21.5 : ℚ) ≤ lat ∧ lat ≤ 25.5 ∧ (119 : ℚ) ≤ lon ∧ lon ≤ 122.5) →
        coordinateToGridId lat lon =
          some (gridIdString ((⌊lat / GRID_SIZE_LAT⌋ : ℚ) * GRID_SIZE_LAT)
            ((⌊lon / GRID_SIZE_LON⌋ : ℚ) * GRID_SIZE_LON))) := by
  intro lat lon
  have hiff : isInTaiwanBounds lat lon ↔
      ((21.5 : ℚ) ≤ lat ∧ lat ≤ 25.5 ∧ (119 : ℚ) ≤ lon ∧ lon ≤ 122.5) := by
    rw [isInTaiwanBounds]
    norm_num [TAIWAN_BOUNDS]
  constructor
  · constructor
    · intro hnone hcl
      rw [coordinateToGridId, if_pos (hiff.mpr hcl)] at hnone
      exact Option.noConfusion hnone
    · intro hncl
      rw [coordinateToGridId, if_neg (fun hb => hncl (hiff.mp hb))]
  · intro hcl
    rw [coordinateToGridId, if_pos (hiff.mpr hcl)]

/-- **C1 witness**: the in-region branch at (23, 121). -/
theorem C1_cell_id_total_witness :
    coordinateToGridId 23 121 =
      some (gridIdString ((⌊(23 : ℚ) / GRID_SIZE_LAT⌋ : ℚ) * GRID_SIZE_LAT)
        ((⌊(121 : ℚ) / GRID_SIZE_LON⌋ : ℚ) * GRID_SIZE_LON)) :=
  (C1_cell_id_total 23 121).2 (by norm_num)

/-- **C2**: the id is a pure function of the enclosing cell: re-deriving
is idempotent, coordinates with equal cell floors give byte-identical
ids, and coordinates with distinct cell floors give distinct ids. -/
theorem C2_cell_id_pure :
    (∀ lat lon : ℚ, coordinateToGridId lat lon = coordinateToGridId lat lon) ∧
    (∀ lat1 lon1 lat2 lon2 : ℚ,
      isInTaiwanBounds lat1 lon1 → isInTaiwanBounds lat2 lon2 →
      ⌊lat1 / GRID_SIZE_LAT⌋ = ⌊lat2 / GRID_SIZE_LAT⌋ →
      ⌊lon1 / GRID_SIZE_LON⌋ = ⌊lon2 / GRID_SIZE_LON⌋ →
      coordinateToGridId lat1 lon1 = coordinateToGridId lat2 lon2) ∧
    (∀ lat1 lon1 lat2 lon2 : ℚ,
      isInTaiwanBounds lat1 lon1 → isInTaiwanBounds lat2 lon2 →
      (⌊lat1 / GRID_SIZE_LAT⌋ ≠ ⌊lat2 / GRID_SIZE_LAT⌋ ∨
        ⌊lon1 / GRID_SIZE_LON⌋ ≠ ⌊lon2 / GRID_SIZE_LON⌋) →
      coordinateToGridId lat1 lon1 ≠ coordinateToGridId lat2 lon2) := by
  refine ⟨fun _ _ => rfl, ?_, ?_⟩
  · intro lat1 lon1 lat2 lon2 h1 h2 hlat hlon
    rw [coordinateToGridId, coordinateToGridId, if_pos h1, if_pos h2, hlat, hlon]
  · intro lat1 lon1 lat2 lon2 h1 h2 hne hEq
    obtain ⟨n1, m1, _, _, _, _, hf1, hg1, he1⟩ := coordinateToGridId_eq_some h1
    obtain ⟨n2, m2, _, _, _, _, hf2, hg2, he2⟩ := coordinateToGridId_eq_some h2
    rw [he1, he2] at hEq
    have hinj := gridIdString_inj ((Option.some.injEq _ _).mp hEq)
    rcases hne with h | h
    · apply h
      rw [hf1, hf2]
      exact_mod_cast congrArg (fun x : ℕ => (x : ℤ)) (by omega : n1 = n2)
    · apply h
      rw [hg1, hg2]
      exact_mod_cast congrArg (fun x : ℕ => (x : ℤ)) (by omega : m1 = m2)

/-- **C2 witness**: the two same-cell dedup coordinates give identical
ids; a different cell gives a different id. -/
theorem C2_cell_id_pure_witness :
    coordinateToGridId 25.0330 121.5654 = coordinateToGridId 25.0335 121.5658 ∧
    coordinateToGridId 25.0330 121.5654 ≠ coordinateToGridId 23 121 := by
  constructor
  · refine C2_cell_id_pure.2.1 _ _ _ _
      (by norm_num [isInTaiwanBounds, TAIWAN_BOUNDS])
      (by norm_num [isInTaiwanBounds, TAIWAN_BOUNDS]) ?_ ?_
    · rw [show ⌊(25.0330 : ℚ) / GRID_SIZE_LAT⌋ = 2781 by
          norm_num [GRID_SIZE_LAT, Int.floor_eq_iff],
        show ⌊(25.0335 : ℚ) / GRID_SIZE_LAT⌋ = 2781 by
          norm_num [GRID_SIZE_LAT, Int.floor_eq_iff]]
    · rw [show ⌊(121.5654 : ℚ) / GRID_SIZE_LON⌋ = 12156 by
          norm_num [GRID_SIZE_LON, Int.floor_eq_iff],
        show ⌊(121.5658 : ℚ) / GRID_SIZE_LON⌋ = 12156 by
          norm_num [GRID_SIZE_LON, Int.floor_eq_iff]]
  · refine C2_cell_id_pure.2.2 _ _ _ _
      (by norm_num [isInTaiwanBounds, TAIWAN_BOUNDS])
      (by norm_num [isInTaiwanBounds, TAIWAN_BOUNDS]) (Or.inl ?_)
    rw [show ⌊(25.0330 : ℚ) / GRID_SIZE_LAT⌋ = 2781 by
        norm_num [GRID_SIZE_LAT, Int.floor_eq_iff],
      show ⌊(23 : ℚ) / GRID_SIZE_LAT⌋ = 2555 by
        norm_num [GRID_SIZE_LAT, Int.floor_eq_iff]]
    norm_num

/-- **C9**: every id produced by `coordinateToGridId` on an in-region
coordinate parses back to a corner, and re-encoding that corner through
the same floor-and-format logic reproduces the id byte-for-byte. -/
theorem C9_round_trip :
    ∀ (lat lon : ℚ) (id : String), isInTaiwanBounds lat lon →
      coordinateToGridId lat lon = some id →
      ∃ corner : ℚ × ℚ, gridIdToCoordinate id = some corner ∧
        gridIdString ((⌊corner.1 / GRID_SIZE_LAT⌋ : ℚ) * GRID_SIZE_LAT)
          ((⌊corner.2 / GRID_SIZE_LON⌋ : ℚ) * GRID_SIZE_LON) = id := by
  intro lat lon id h hsome
  obtain ⟨n, m, _, _, _, _, _, _, heq⟩ := coordinateToGridId_eq_some h
  rw [heq] at hsome
  obtain rfl := (Option.some.injEq _ _).mp hsome
  refine ⟨(((9 * n : ℕ) : ℚ) / 10 ^ 3, ((m : ℕ) : ℚ) / 10 ^ 2),
    gridIdToCoordinate_gridIdString (9 * n) m, ?_⟩
  show gridIdString ((⌊(((9 * n : ℕ) : ℚ) / 10 ^ 3) / GRID_SIZE_LAT⌋ : ℚ) * GRID_SIZE_LAT)
    ((⌊(((m : ℕ) : ℚ) / 10 ^ 2) / GRID_SIZE_LON⌋ : ℚ) * GRID_SIZE_LON) = _
  rw [floor_scaled_lat, floor_scaled_lon, nat_corner_lat, nat_corner_lon]

/-- **C9 witness**: the round trip at (23, 121). -/
theorem C9_round_trip_witness :
    ∃ corner : ℚ × ℚ, gridIdToCoordinate "grid_22.995_121.00" = some corner ∧
      gridIdString ((⌊corner.1 / GRID_SIZE_LAT⌋ : ℚ) * GRID_SIZE_LAT)
        ((⌊corner.2 / GRID_SIZE_LON⌋ : ℚ) * GRID_SIZE_LON) = "grid_22.995_121.00" :=
  C9_round_trip 23 121 _ (by norm_num [isInTaiwanBounds, TAIWAN_BOUNDS])
    coordinateToGridId_23_121

/-- **C10** (amended): for every in-region coordinate the derived cell's
center exists, and **when that center is itself in-region** re-deriving
the id from the center reproduces the same id.  (The unconditional claim
fails on boundary cells whose center falls outside the region — see the
counterexample.) -/
theorem C10_center_stability :
    ∀ (lat lon : ℚ) (id : String), isInTaiwanBounds lat lon →
      coordinateToGridId lat lon = some id →
      ∃ center : ℚ × ℚ, gridIdToCenter id = some center ∧
        (isInTaiwanBounds center.1 center.2 →
          coordinateToGridId center.1 center.2 = some id) := by
  intro lat lon id h hsome
  obtain ⟨n, m, _, _, _, _, _, _, heq⟩ := coordinateToGridId_eq_some h
  rw [heq] at hsome
  obtain rfl := (Option.some.injEq _ _).mp hsome
  refine ⟨(((9 * n : ℕ) : ℚ) / 10 ^ 3 + GRID_SIZE_LAT / 2,
    ((m : ℕ) : ℚ) / 10 ^ 2 + GRID_SIZE_LON / 2), ?_, ?_⟩
  · rw [gridIdToCenter, gridIdToCoordinate_gridIdString]
  · intro hin
    rw [coordinateToGridId, if_pos hin]
    rw [show ⌊(((9 * n : ℕ) : ℚ) / 10 ^ 3 + GRID_SIZE_LAT / 2, ((m : ℕ) : ℚ) / 10 ^ 2 +
        GRID_SIZE_LON / 2).1 / GRID_SIZE_LAT⌋ = (n : ℤ) from floor_center_lat n]
    rw [show ⌊(((9 * n : ℕ) : ℚ) / 10 ^ 3 + GRID_SIZE_LAT / 2, ((m : ℕ) : ℚ) / 10 ^ 2 +
        GRID_SIZE_LON / 2).2 / GRID_SIZE_LON⌋ = (m : ℤ) from floor_center_lon m]
    rw [nat_corner_lat, nat_corner_lon]

/-- **C10 witness**: the interior cell of (23, 121) has center
(22.9995, 121.005), which is in-region and re-derives the same id. -/
theorem C10_center_stability_witness :
    coordinateToGridId (22.9995 : ℚ) (121.005 : ℚ) = some "grid_22.995_121.00" := by
  obtain ⟨center, hc, himp⟩ := C10_center_stability 23 121 _
    (by norm_num [isInTaiwanBounds, TAIWAN_BOUNDS]) coordinateToGridId_23_121
  have hid : "grid_22.995_121.00" =
      gridIdString (((22995 : ℕ) : ℚ) / 10 ^ 3) (((12100 : ℕ) : ℚ) / 10 ^ 2) := by
    rw [gridIdString_scaled]
    decide
  rw [hid, gridIdToCenter, gridIdToCoordinate_gridIdString] at hc
  have hcv : center = (((22995 : ℕ) : ℚ) / 10 ^ 3 + GRID_SIZE_LAT / 2,
      ((12100 : ℕ) : ℚ) / 10 ^ 2 + GRID_SIZE_LON / 2) :=
    ((Option.some.injEq _ _).mp hc).symm
  have h1 : center.1 = (22.9995 : ℚ) := by
    rw [hcv]
    norm_num [GRID_SIZE_LAT]
  have h2 : center.2 = (121.005 : ℚ) := by
    rw [hcv]
    norm_num [GRID_SIZE_LON]
  rw [← h1, ← h2]
  exact himp (by
    rw [h1, h2]
    norm_num [isInTaiwanBounds, TAIWAN_BOUNDS])

/-- **C10 counterexample**: (21.5, 121) is in-region, its cell is
`grid_21.492_121.00`, but that cell's center (21.4965, 121.005) lies
below `minLat`, so re-deriving the id from the center returns `none`. -/
theorem C10_counterexample :
    coordinateToGridId 21.5 121 = some "grid_21.492_121.00" ∧
    gridIdToCenter "grid_21.492_121.00" = some (21.4965, 121.005) ∧
    coordinateToGridId (21.4965 : ℚ) (121.005 : ℚ) = none := by
  refine ⟨?_, ?_, ?_⟩
  · rw [coordinateToGridId_concrete 2388 12100
      (by norm_num [isInTaiwanBounds, TAIWAN_BOUNDS])
      (by norm_num [GRID_SIZE_LAT, Int.floor_eq_iff])
      (by norm_num [GRID_SIZE_LON, Int.floor_eq_iff]) (by norm_num) (by norm_num)]
    congr 1
    rw [show (9 * ((2388 : ℤ)).toNat : ℕ) = 21492 from rfl,
      show ((((12100 : ℤ)).toNat : ℕ)) = 12100 from rfl]
    rw [gridIdString_scaled]
    decide
  · have hid : "grid_21.492_121.00" =
        gridIdString (((21492 : ℕ) : ℚ) / 10 ^ 3) (((12100 : ℕ) : ℚ) / 10 ^ 2) := by
      rw [gridIdString_scaled]
      decide
    rw [hid, gridIdToCenter, gridIdToCoordinate_gridIdString]
    show some (((21492 : ℕ) : ℚ) / 10 ^ 3 + GRID_SIZE_LAT / 2,
      ((12100 : ℕ) : ℚ) / 10 ^ 2 + GRID_SIZE_LON / 2) = _
    norm_num [GRID_SIZE_LAT, GRID_SIZE_LON]
  · rw [coordinateToGridId, if_neg]
    norm_num [isInTaiwanBounds, TAIWAN_BOUNDS]

/-! ## Lemmas: visit recording -/

theorem intChars_no_slash (n : ℤ) : ('/' : Char) ∉ intChars n := by
  intro hm
  rw [intChars] at hm
  rcases List.mem_append.mp hm with h1 | h2
  · by_cases hn : n < 0
    · rw [if_pos hn] at h1
      exact absurd (List.mem_singleton.mp h1) (by decide)
    · rw [if_neg hn] at h1
      simp at h1
  · exact (digit_ne_chars (natStr_all_digit _ _ h2)).2.2.2.2.2 rfl

theorem ratChars_no_comma (q : ℚ) : (',' : Char) ∉ ratChars q := by
  intro hm
  rw [ratChars] at hm
  rcases List.mem_append.mp hm with h1 | h2
  · rw [intChars] at h1
    rcases List.mem_append.mp h1 with h3 | h4
    · by_cases hn : q.num < 0
      · rw [if_pos hn] at h3
        exact absurd (List.mem_singleton.mp h3) (by decide)
      · rw [if_neg hn] at h3
        simp at h3
    · exact (digit_ne_chars (natStr_all_digit _ _ h4)).2.2.2.2.1 rfl
  · rcases List.mem_cons.mp h2 with h3 | h4
    · exact absurd h3 (by decide)
    · exact (digit_ne_chars (natStr_all_digit _ _ h4)).2.2.2.2.1 rfl

theorem intChars_inj {a b : ℤ} (h : intChars a = intChars b) : a = b := by
  rw [intChars, intChars] at h
  by_cases ha : a < 0 <;> by_cases hb : b < 0
  · rw [if_pos ha, if_pos hb] at h
    simp only [List.singleton_append, List.cons.injEq] at h
    have := natStr_inj h.2
    omega
  · rw [if_pos ha, if_neg hb] at h
    simp only [List.singleton_append, List.nil_append] at h
    cases hns : natStr b.natAbs with
    | nil => exact absurd hns (natStr_ne_nil _)
    | cons c t =>
      rw [hns, List.cons.injEq] at h
      have hd : isDigitChar c = true := by
        apply natStr_all_digit b.natAbs c
        rw [hns]
        exact List.mem_cons_self c t
      exact absurd h.1.symm (digit_ne_chars hd).1
  · rw [if_neg ha, if_pos hb] at h
    simp only [List.singleton_append, List.nil_append] at h
    cases hns : natStr a.natAbs with
    | nil => exact absurd hns (natStr_ne_nil _)
    | cons c t =>
      rw [hns, List.cons.injEq] at h
      have hd : isDigitChar c = true := by
        apply natStr_all_digit a.natAbs c
        rw [hns]
        exact List.mem_cons_self c t
      exact absurd h.1 (digit_ne_chars hd).1
  · rw [if_neg ha, if_neg hb] at h
    simp only [List.nil_append] at h
    have := natStr_inj h
    omega

theorem ratChars_inj {p q : ℚ} (h : ratChars p = ratChars q) : p = q := by
  rw [ratChars, ratChars] at h
  have h2 := append_sep_inj (intChars_no_slash p.num) (intChars_no_slash q.num) h
  exact Rat.ext (intChars_inj h2.1) (natStr_inj h2.2)

theorem coordString_inj {lat lon lat' lon' : ℚ}
    (h : coordString lat lon = coordString lat' lon') : lat = lat' ∧ lon = lon' := by
  have hd : ratChars lat ++ ',' :: ratChars lon =
      ratChars lat' ++ ',' :: ratChars lon' := congrArg String.data h
  have h2 := append_sep_inj (ratChars_no_comma lat) (ratChars_no_comma lat') hd
  exact ⟨ratChars_inj h2.1, ratChars_inj h2.2⟩

theorem touchFirst_length (p : Footprint → Bool) (now : ℕ) :
    ∀ db : List Footprint, (touchFirst p now db).length = db.length := by
  intro db
  induction db with
  | nil => rfl
  | cons f rest ih =>
    rw [touchFirst]
    by_cases hp : p f
    · rw [if_pos hp]
      simp
    · rw [if_neg hp]
      simp only [List.length_cons, ih]

theorem recordVisitRaw_outOfBounds (userId : String) {lat lon : ℚ} (now : ℕ)
    (db : List Footprint) (h : ¬ isInTaiwanBounds lat lon) :
    recordVisitRaw userId lat lon now db = (VisitOutcome.outOfBounds, db) := by
  have hnone : coordinateToGridId lat lon = none := by
    rw [coordinateToGridId, if_neg h]
  rw [recordVisitRaw, hnone]

theorem recordVisitRaw_inBounds (userId : String) {lat lon : ℚ} (now : ℕ)
    (db : List Footprint) (h : isInTaiwanBounds lat lon) :
    recordVisitRaw userId lat lon now db =
      match db.find? (footprintMatches userId (coordString lat lon)) with
      | some _ => (VisitOutcome.updated,
          touchFirst (footprintMatches userId (coordString lat lon)) now db)
      | none => (VisitOutcome.created,
          db ++ [⟨userId, coordString lat lon, now⟩]) := by
  obtain ⟨n, m, _, _, _, _, _, _, heq⟩ := coordinateToGridId_eq_some h
  rw [recordVisitRaw, heq]

/-- **C5** (amended): the raw-coordinate endpoint behaves exactly as the
claim states: it rejects out-of-region coordinates with no effect on the
store, keys the lookup on the exact raw coordinate string, touches only
the timestamp on a hit (`created = false`), creates exactly one row on a
miss, and two distinct in-region raw coordinates always persist as two
separate rows.  (The claim also cites the explore-grid endpoint, which
instead keys on the **cell-center** string — see the counterexample.) -/
theorem C5_record_visit :
    (∀ (userId : String) (lat lon : ℚ) (now : ℕ) (db : List Footprint),
      ((recordVisitRaw userId lat lon now db).1 = VisitOutcome.outOfBounds ↔
        ¬ isInTaiwanBounds lat lon) ∧
      (¬ isInTaiwanBounds lat lon → (recordVisitRaw userId lat lon now db).2 = db) ∧
      (isInTaiwanBounds lat lon →
        (db.find? (footprintMatches userId (coordString lat lon)) = none →
          (recordVisitRaw userId lat lon now db).1 = VisitOutcome.created ∧
          (recordVisitRaw userId lat lon now db).2 =
            db ++ [⟨userId, coordString lat lon, now⟩]) ∧
        (db.find? (footprintMatches userId (coordString lat lon)) ≠ none →
          (recordVisitRaw userId lat lon now db).1 = VisitOutcome.updated ∧
          (recordVisitRaw userId lat lon now db).2 =
            touchFirst (footprintMatches userId (coordString lat lon)) now db ∧
          ((recordVisitRaw userId lat lon now db).2).length = db.length))) ∧
    (∀ (userId : String) (lat lon lat' lon' : ℚ) (now now' : ℕ),
      isInTaiwanBounds lat lon → isInTaiwanBounds lat' lon' →
      (lat, lon) ≠ (lat', lon') →
      ((recordVisitRaw userId lat' lon' now'
        ((recordVisitRaw userId lat lon now []).2)).2).length = 2) := by
  constructor
  · intro userId lat lon now db
    by_cases hb : isInTaiwanBounds lat lon
    · rw [recordVisitRaw_inBounds userId now db hb]
      cases hf : db.find? (footprintMatches userId (coordString lat lon)) with
      | none =>
        refine ⟨by simp [hb], fun hc => absurd hb hc, fun _ => ⟨fun _ => ⟨rfl, rfl⟩, ?_⟩⟩
        intro hne
        exact absurd rfl hne
      | some f =>
        refine ⟨by simp [hb], fun hc => absurd hb hc, fun _ => ⟨?_, ?_⟩⟩
        · intro hno
          exact absurd hno (by simp)
        · exact fun _ => ⟨rfl, rfl, touchFirst_length _ now db⟩
    · rw [recordVisitRaw_outOfBounds userId now db hb]
      exact ⟨by simp [hb], fun _ => rfl, fun hc => absurd hc hb⟩
  · intro userId lat lon lat' lon' now now' h1 h2 hne
    have hs : coordString lat lon ≠ coordString lat' lon' := by
      intro hc
      obtain ⟨ha, hb⟩ := coordString_inj hc
      exact hne (by rw [ha, hb])
    have hfirst : (recordVisitRaw userId lat lon now []).2 =
        [⟨userId, coordString lat lon, now⟩] := by
      rw [recordVisitRaw_inBounds userId now [] h1]
      rfl
    rw [hfirst, recordVisitRaw_inBounds userId now' _ h2]
    have hfind : ([⟨userId, coordString lat lon, now⟩] : List Footprint).find?
        (footprintMatches userId (coordString lat' lon')) = none := by
      simp only [List.find?, footprintMatches]
      rw [show ((⟨userId, coordString lat lon, now⟩ : Footprint).coordinate ==
        coordString lat' lon') = false from beq_eq_false_iff_ne.mpr hs]
      simp
    rw [hfind]
    rfl

/-- **C5 witness**: two distinct in-region raw coordinates recorded
through the raw endpoint persist as two separate rows. -/
theorem C5_record_visit_witness :
    ((recordVisitRaw "u" 24 121 1 ((recordVisitRaw "u" 23 121 0 []).2)).2).length = 2 :=
  C5_record_visit.2 "u" 23 121 24 121 0 1
    (by norm_num [isInTaiwanBounds, TAIWAN_BOUNDS])
    (by norm_num [isInTaiwanBounds, TAIWAN_BOUNDS])
    (by
      intro hc
      have h := congrArg Prod.fst hc
      norm_num at h)

theorem recordVisitCenter_eval (userId : String) {lat lon : ℚ} (now : ℕ)
    (db : List Footprint) (hb : isInTaiwanBounds lat lon) {gid : String}
    (hg : coordinateToGridId lat lon = some gid) {c : ℚ × ℚ}
    (hc : gridIdToCenter gid = some c) :
    recordVisitCenter userId lat lon now db =
      match db.find? (footprintMatches userId (coordString c.1 c.2)) with
      | some _ => (ExploreOutcome.alreadyExplored, db)
      | none => (ExploreOutcome.created,
          db ++ [⟨userId, coordString c.1 c.2, now⟩]) := by
  rw [recordVisitCenter, if_pos hb, hg]
  show (match gridIdToCenter gid with
    | none => (ExploreOutcome.invalid, db)
    | some center =>
      match db.find? (footprintMatches userId (coordString center.1 center.2)) with
      | some _ => (ExploreOutcome.alreadyExplored, db)
      | none => (ExploreOutcome.created,
          db ++ [(⟨userId, coordString center.1 center.2, now⟩ : Footprint)])) = _
  rw [hc]

theorem coordinateToGridId_second_fix :
    coordinateToGridId (23.0005 : ℚ) (121.001 : ℚ) = some "grid_22.995_121.00" := by
  rw [coordinateToGridId_concrete 2555 12100
    (by norm_num [isInTaiwanBounds, TAIWAN_BOUNDS])
    (by norm_num [GRID_SIZE_LAT, Int.floor_eq_iff])
    (by norm_num [GRID_SIZE_LON, Int.floor_eq_iff]) (by norm_num) (by norm_num)]
  congr 1
  rw [show (9 * ((2555 : ℤ)).toNat : ℕ) = 22995 from rfl,
    show ((((12100 : ℤ)).toNat : ℕ)) = 12100 from rfl]
  rw [gridIdString_scaled]
  decide

theorem center_22995_12100 :
    gridIdToCenter "grid_22.995_121.00" =
      some (((22995 : ℕ) : ℚ) / 10 ^ 3 + GRID_SIZE_LAT / 2,
        ((12100 : ℕ) : ℚ) / 10 ^ 2 + GRID_SIZE_LON / 2) := by
  have hid : "grid_22.995_121.00" =
      gridIdString (((22995 : ℕ) : ℚ) / 10 ^ 3) (((12100 : ℕ) : ℚ) / 10 ^ 2) := by
    rw [gridIdString_scaled]
    decide
  rw [hid, gridIdToCenter, gridIdToCoordinate_gridIdString]

/-- **C5 counterexample**: through the explore-grid endpoint — one of the
two handlers the claim describes — the two distinct raw coordinates
(23, 121) and (23.0005, 121.001), which lie in the same cell, do **not**
persist as two separate records: the second call finds the stored
cell-center string and returns `alreadyExplored`, leaving one row. -/
theorem C5_counterexample :
    ((23 : ℚ), (121 : ℚ)) ≠ ((23.0005 : ℚ), (121.001 : ℚ)) ∧
    isInTaiwanBounds 23 121 ∧ isInTaiwanBounds (23.0005 : ℚ) (121.001 : ℚ) ∧
    (recordVisitCenter "u" (23.0005 : ℚ) (121.001 : ℚ) 1
        ((recordVisitCenter "u" 23 121 0 []).2)).1 = ExploreOutcome.alreadyExplored ∧
    ((recordVisitCenter "u" (23.0005 : ℚ) (121.001 : ℚ) 1
        ((recordVisitCenter "u" 23 121 0 []).2)).2).length = 1 := by
  have hb1 : isInTaiwanBounds 23 121 := by norm_num [isInTaiwanBounds, TAIWAN_BOUNDS]
  have hb2 : isInTaiwanBounds (23.0005 : ℚ) (121.001 : ℚ) := by
    norm_num [isInTaiwanBounds, TAIWAN_BOUNDS]
  have hfirst : (recordVisitCenter "u" 23 121 0 []).2 =
      [⟨"u", coordString (((22995 : ℕ) : ℚ) / 10 ^ 3 + GRID_SIZE_LAT / 2)
        (((12100 : ℕ) : ℚ) / 10 ^ 2 + GRID_SIZE_LON / 2), 0⟩] := by
    rw [recordVisitCenter_eval "u" 0 [] hb1 coordinateToGridId_23_121 center_22995_12100]
    rfl
  have hsecond : recordVisitCenter "u" (23.0005 : ℚ) (121.001 : ℚ) 1
      ((recordVisitCenter "u" 23 121 0 []).2) =
      (ExploreOutcome.alreadyExplored, (recordVisitCenter "u" 23 121 0 []).2) := by
    rw [hfirst,
      recordVisitCenter_eval "u" 1 _ hb2 coordinateToGridId_second_fix center_22995_12100]
    have hfind : ([⟨"u", coordString (((22995 : ℕ) : ℚ) / 10 ^ 3 + GRID_SIZE_LAT / 2)
        (((12100 : ℕ) : ℚ) / 10 ^ 2 + GRID_SIZE_LON / 2), 0⟩] : List Footprint).find?
        (footprintMatches "u"
          (coordString (((22995 : ℕ) : ℚ) / 10 ^ 3 + GRID_SIZE_LAT / 2)
            (((12100 : ℕ) : ℚ) / 10 ^ 2 + GRID_SIZE_LON / 2))) ≠ none := by
      simp [List.find?, footprintMatches]
    cases hf : ([⟨"u", coordString (((22995 : ℕ) : ℚ) / 10 ^ 3 + GRID_SIZE_LAT / 2)
        (((12100 : ℕ) : ℚ) / 10 ^ 2 + GRID_SIZE_LON / 2), 0⟩] : List Footprint).find?
        (footprintMatches "u"
          (coordString (((22995 : ℕ) : ℚ) / 10 ^ 3 + GRID_SIZE_LAT / 2)
            (((12100 : ℕ) : ℚ) / 10 ^ 2 + GRID_SIZE_LON / 2))) with
    | none => exact absurd hf hfind
    | some f => rfl
  refine ⟨?_, hb1, hb2, ?_, ?_⟩
  · intro hc
    have h := congrArg Prod.fst hc
    norm_num at h
  · rw [hsecond]
  · rw [hsecond, hfirst]
    rfl

end SoulMiles
